import Mathlib

/-!
Verification of the poker hand evaluator.

The definitions below are a shallow embedding of the evaluator source
(src/main.rs): the card and rank data model, Hand::new together with
sort_and_categorize, the derived comparison on Hand, and form_best_hand.
Rust machine integers appearing in rank arithmetic are modelled as Int;
the rank ordinals 0..12 as Nat.  Rust slice sort (a stable ascending
sort) is modelled by List.insertionSort, which is stable as well.
Indexing that can panic at runtime (the group accesses t[0] and t[1] on a
Vec, and the write indices of the copy-back loop) is modelled with
Option, none standing for a panic.
-/

inductive CardSuit where
  | Spades
  | Hearts
  | Clubs
  | Diamonds
deriving DecidableEq

inductive CardRank where
  | Two
  | Three
  | Four
  | Five
  | Six
  | Seven
  | Eight
  | Nine
  | Ten
  | Jack
  | Queen
  | King
  | Ace
deriving DecidableEq, Fintype

/-- Ordinal of a rank, 0 to 12, mirroring the Rust enum discriminant
order Two < Three < ... < Ace of the derived Ord on CardRank. -/
def CardRank.val : CardRank → Nat
  | .Two => 0
  | .Three => 1
  | .Four => 2
  | .Five => 3
  | .Six => 4
  | .Seven => 5
  | .Eight => 6
  | .Nine => 7
  | .Ten => 8
  | .Jack => 9
  | .Queen => 10
  | .King => 11
  | .Ace => 12

structure Card where
  suit : CardSuit
  rank : CardRank
deriving DecidableEq

/-- Rank ordinal of a card. -/
def Card.rankNat (c : Card) : Nat := c.rank.val

/-- The manual Ord impl on the Rust Card orders by rank alone; suit is
ignored. -/
def cardLe (a b : Card) : Prop := a.rankNat ≤ b.rankNat

instance : DecidableRel cardLe := fun a b => Nat.decLe a.rankNat b.rankNat

instance : IsTotal Card cardLe := ⟨fun a b => Nat.le_total a.rankNat b.rankNat⟩

instance : IsTrans Card cardLe := ⟨fun _ _ _ h1 h2 => Nat.le_trans h1 h2⟩

/-- Rust: cards.sort(); cards.reverse().  The slice sort is stable and
ascending in the rank-only Card order; insertionSort is the matching
stable sort. -/
def sortedDesc (cards : List Card) : List Card :=
  (cards.insertionSort cardLe).reverse

/-- Rust: iterating over group_by(|card| card.rank) on the sorted cards,
collecting each group: splits the list into maximal runs of consecutive
cards of equal rank, each card joining the current run exactly when its
rank equals the previous rank, as the itertools key comparison does.
The inner [] arm is unreachable: the recursive call on a nonempty list
is never empty. -/
def groupByRank : List Card → List (List Card)
  | [] => []
  | [c] => [[c]]
  | c :: d :: cs =>
    if c.rank = d.rank then
      match groupByRank (d :: cs) with
      | g :: gs => (c :: g) :: gs
      | [] => [[c]]
    else [c] :: groupByRank (d :: cs)

/-- Rust: for (i, card) in t.iter().flatten().enumerate() writes card into
cards[i].  Writing past the end of dst would panic, modelled as none;
otherwise the front of dst is overwritten elementwise by src. -/
def copyOrder (dst src : List Card) : Option (List Card) :=
  if src.length ≤ dst.length then some (src ++ dst.drop src.length) else none

/-- Key relation of Rust t.sort_by_key(|k| k.len()). -/
def groupLenLe (g1 g2 : List Card) : Prop := g1.length ≤ g2.length

instance : DecidableRel groupLenLe := fun g1 g2 => Nat.decLe g1.length g2.length

instance : IsTotal (List Card) groupLenLe := ⟨fun a b => Nat.le_total a.length b.length⟩

instance : IsTrans (List Card) groupLenLe := ⟨fun _ _ _ h1 h2 => Nat.le_trans h1 h2⟩

inductive HandCategory where
  | HighCard
  | Pair
  | TwoPair
  | ThreeOfAKind
  | Straight
  | Flush
  | FullHouse
  | FourOfAKind
  | StraightFlush
  | RoyalFlush
deriving DecidableEq, Fintype

/-- Ordinal of the category in declaration order, mirroring the derived
Ord on the Rust HandCategory enum. -/
def HandCategory.val : HandCategory → Nat
  | .HighCard => 0
  | .Pair => 1
  | .TwoPair => 2
  | .ThreeOfAKind => 3
  | .Straight => 4
  | .Flush => 5
  | .FullHouse => 6
  | .FourOfAKind => 7
  | .StraightFlush => 8
  | .RoyalFlush => 9

/-- The group list t after Rust t.sort_by_key(|k| k.len()) (a stable
ascending sort) followed by t.reverse(). -/
def sortGroups (cs : List Card) : List (List Card) :=
  ((groupByRank cs).insertionSort groupLenLe).reverse

/-- The grouping arm of sort_and_categorize: group the (already sorted)
cards by rank, sort the groups by length ascending (stable) and reverse,
copy the flattened group order back over the cards, then match on the
lengths of t[0] and t[1]; an out-of-bounds group index is a panic,
modelled as none. -/
def categorizeGroups (cs : List Card) : Option (HandCategory × List Card) :=
  match copyOrder cs (sortGroups cs).flatten with
  | none => none
  | some out =>
    match (sortGroups cs)[0]? with
    | none => none
    | some g0 =>
      match g0.length with
      | 4 => some (.FourOfAKind, out)
      | 3 =>
        match (sortGroups cs)[1]? with
        | none => none
        | some g1 => some (if g1.length = 2 then .FullHouse else .ThreeOfAKind, out)
      | 2 =>
        match (sortGroups cs)[1]? with
        | none => none
        | some g1 => some (if g1.length = 2 then .TwoPair else .Pair, out)
      | _ => some (.HighCard, out)

/-- Rust is_flush: all five cards share the suit of cards[0], read before
any wheel rotation. -/
def isFlushB (c0 c1 c2 c3 c4 : Card) : Bool :=
  [c0, c1, c2, c3, c4].all fun c => decide (c.suit = c0.suit)

/-- Rust sub: the i8 rank differences of the four highest cards against
the lowest ranking card. -/
def subList (c0 c1 c2 c3 c4 : Card) : List Int :=
  [(c0.rankNat : Int) - (c4.rankNat : Int), (c1.rankNat : Int) - (c4.rankNat : Int),
    (c2.rankNat : Int) - (c4.rankNat : Int), (c3.rankNat : Int) - (c4.rankNat : Int)]

/-- Rust is_straight block: the flag, together with the card order after
the block ran, which is rotated left by one exactly when the wheel
pattern [12, 3, 2, 1] was detected. -/
def straightRes (c0 c1 c2 c3 c4 : Card) : Bool × List Card :=
  if subList c0 c1 c2 c3 c4 = [4, 3, 2, 1] then (true, [c0, c1, c2, c3, c4])
  else if subList c0 c1 c2 c3 c4 = [12, 3, 2, 1] then (true, [c1, c2, c3, c4, c0])
  else (false, [c0, c1, c2, c3, c4])

/-- Rust is_royal: every card ranks Ten or higher.  It is evaluated on
the cards as they stand after the straight block. -/
def royalB (cs : List Card) : Bool :=
  cs.all fun c => decide (8 ≤ c.rankNat)

/-- Body of sort_and_categorize after the initial descending sort, on the
five sorted cards c0, c1, c2, c3, c4 (descending rank). -/
def categorizeSorted (c0 c1 c2 c3 c4 : Card) : Option (HandCategory × List Card) :=
  if isFlushB c0 c1 c2 c3 c4 then
    if royalB (straightRes c0 c1 c2 c3 c4).2 then
      some (.RoyalFlush, (straightRes c0 c1 c2 c3 c4).2)
    else if (straightRes c0 c1 c2 c3 c4).1 then
      some (.StraightFlush, (straightRes c0 c1 c2 c3 c4).2)
    else some (.Flush, (straightRes c0 c1 c2 c3 c4).2)
  else if (straightRes c0 c1 c2 c3 c4).1 then
    some (.Straight, (straightRes c0 c1 c2 c3 c4).2)
  else categorizeGroups (straightRes c0 c1 c2 c3 c4).2

/-- Rust fn sort_and_categorize(cards: &mut [Card; 5]) -> HandCategory,
returned here as the category together with the final card order.  The
input array type fixes the length at five; other lengths fall to the
final catch-all and are mapped to none. -/
def sortAndCategorize (cards : List Card) : Option (HandCategory × List Card) :=
  match sortedDesc cards with
  | [c0, c1, c2, c3, c4] => categorizeSorted c0 c1 c2 c3 c4
  | _ => none

structure Hand where
  category : HandCategory
  cards : List Card
deriving DecidableEq

/-- Rust Hand::new(cards): categorize and store the reordered cards. -/
def handNew (cards : List Card) : Option Hand :=
  (sortAndCategorize cards).map fun p => { category := p.1, cards := p.2 }

/-- Rust Card Ord: comparison by rank alone. -/
def cardCmp (a b : Card) : Ordering := compare a.rankNat b.rankNat

/-- Lexicographic comparison of card sequences, as the derived Ord on the
array [Card; 5]. -/
def cardsCmp : List Card → List Card → Ordering
  | [], [] => .eq
  | [], _ :: _ => .lt
  | _ :: _, [] => .gt
  | a :: xs, b :: ys => (cardCmp a b).then (cardsCmp xs ys)

/-- Derived Ord on the Rust Hand struct: category field first, then the
card sequence. -/
def handCmp (h1 h2 : Hand) : Ordering :=
  (compare h1.category.val h2.category.val).then (cardsCmp h1.cards h2.cards)

/-- Rust fn form_best_hand(community: &[Card], hole: &[Card]).  The body
iterates over hole.iter().combinations(2) and over the 5-card
combinations of community chained with the chosen hole cards, but the
inner loop body is empty and the function has no return value: it
computes nothing and is the constant unit function. -/
def form_best_hand (community : List Card) (hole : List Card) : Unit := ()

/-- Specification notion: all cards share one suit. -/
def allSameSuit (l : List Card) : Prop := ∀ x ∈ l, ∀ y ∈ l, x.suit = y.suit

instance (l : List Card) : Decidable (allSameSuit l) := by
  unfold allSameSuit
  infer_instance

/-- Specification notion: the five ranks form a run, that is five
consecutive rank ordinals, or the ace-low wheel A-5-4-3-2. -/
def isRun (l : List Card) : Prop :=
  (∃ k, k < 9 ∧ (l.map Card.rankNat).Perm [k + 4, k + 3, k + 2, k + 1, k]) ∨
    (l.map Card.rankNat).Perm [12, 3, 2, 1, 0]

/-- Descending order on Nat, used to present multiplicity multisets in a
canonical sorted form. -/
def natGe (x y : Nat) : Prop := y ≤ x

instance : DecidableRel natGe := fun x y => Nat.decLe y x

instance : IsTotal Nat natGe := ⟨fun a b => Nat.le_total b a⟩

instance : IsTrans Nat natGe := ⟨fun _ _ _ h1 h2 => Nat.le_trans h2 h1⟩

instance : IsAntisymm Nat natGe := ⟨fun _ _ h1 h2 => Nat.le_antisymm h2 h1⟩

/-- Descending sorted list of the multiplicities of a list of rank
ordinals. -/
def natCountsDesc (rs : List Nat) : List Nat :=
  ((rs.dedup).map fun r => rs.count r).insertionSort natGe

/-- Specification notion: the multiset of rank-group sizes of a hand,
written as the descending sorted list of rank multiplicities. -/
def countsDesc (l : List Card) : List Nat :=
  natCountsDesc (l.map Card.rankNat)

/-- Specification table mapping the descending group-size pattern of a
hand that is neither a flush nor a straight to its category. -/
def categoryOfCounts : List Nat → HandCategory
  | [4, 1] => .FourOfAKind
  | [3, 2] => .FullHouse
  | [3, 1, 1] => .ThreeOfAKind
  | [2, 2, 1] => .TwoPair
  | [2, 1, 1, 1] => .Pair
  | _ => .HighCard

/-- Category of the evaluation of a five-card list. -/
def handCategoryOf (l : List Card) : Option HandCategory :=
  (sortAndCategorize l).map Prod.fst

/-- Rank-level view of an evaluation result: the category together with
the rank ordinals of the card sequence. -/
def rankView (o : Option (HandCategory × List Card)) : Option (HandCategory × List Nat) :=
  o.map fun p => (p.1, p.2.map Card.rankNat)

/-! Rank-level image of the grouping pipeline.  The grouping, the group
sort and the copy-back are all driven by ranks and lengths only, so the
rank image of an evaluation is a function of the rank image of the input. -/

/-- Rank-level shadow of groupByRank. -/
def natGroupBy : List Nat → List (List Nat)
  | [] => []
  | [n] => [[n]]
  | n :: m :: ns =>
    if n = m then
      match natGroupBy (m :: ns) with
      | g :: gs => (n :: g) :: gs
      | [] => [[n]]
    else [n] :: natGroupBy (m :: ns)

/-- Rank-level shadow of groupLenLe. -/
def natLenLe (g1 g2 : List Nat) : Prop := g1.length ≤ g2.length

instance : DecidableRel natLenLe := fun g1 g2 => Nat.decLe g1.length g2.length

instance (l : List Card) : Decidable (isRun l) := by
  unfold isRun
  infer_instance

/-! Basic facts about the data model and the sorting step. -/

theorem rankVal_inj {a b : CardRank} : a.val = b.val ↔ a = b := by
  constructor
  · revert a b
    decide
  · intro h
    rw [h]

theorem CardRank.val_le_12 (a : CardRank) : a.val ≤ 12 := by
  revert a
  decide

theorem Card.rank_eq_iff {a b : Card} : a.rank = b.rank ↔ a.rankNat = b.rankNat :=
  rankVal_inj.symm

theorem sortedDesc_perm (l : List Card) : (sortedDesc l).Perm l :=
  (List.reverse_perm _).trans (List.perm_insertionSort _ _)

theorem sortedDesc_length (l : List Card) : (sortedDesc l).length = l.length :=
  (sortedDesc_perm l).length_eq

theorem sortedDesc_sorted (l : List Card) :
    (sortedDesc l).Pairwise fun a b => b.rankNat ≤ a.rankNat := by
  have h := List.sorted_insertionSort cardLe l
  unfold sortedDesc
  exact List.pairwise_reverse.mpr h

theorem sortedDesc_ranks_sorted (l : List Card) :
    ((sortedDesc l).map Card.rankNat).Pairwise natGe := by
  exact (sortedDesc_sorted l).map Card.rankNat fun a b h => h

theorem sortedDesc_ranks_eq_of_perm {l : List Card} {rs : List Nat}
    (hp : (l.map Card.rankNat).Perm rs) (hs : rs.Pairwise natGe) :
    (sortedDesc l).map Card.rankNat = rs := by
  refine List.eq_of_perm_of_sorted ?_ (sortedDesc_ranks_sorted l) hs
  exact ((sortedDesc_perm l).map Card.rankNat).trans hp

theorem length_five_cases {α : Type} {l : List α} (h : l.length = 5) :
    ∃ a b c d e, l = [a, b, c, d, e] := by
  match l, h with
  | [a, b, c, d, e], _ => exact ⟨a, b, c, d, e, rfl⟩

theorem sortAndCategorize_eq_sorted {l : List Card} {c0 c1 c2 c3 c4 : Card}
    (h : sortedDesc l = [c0, c1, c2, c3, c4]) :
    sortAndCategorize l = categorizeSorted c0 c1 c2 c3 c4 := by
  unfold sortAndCategorize
  rw [h]

theorem groupByRank_ne_nil (c : Card) (cs : List Card) : groupByRank (c :: cs) ≠ [] := by
  match cs with
  | [] => simp [groupByRank]
  | d :: cs2 =>
    rw [groupByRank]
    by_cases h : c.rank = d.rank
    · rw [if_pos h]
      cases groupByRank (d :: cs2) <;> simp
    · rw [if_neg h]
      simp

theorem groupByRank_flatten : ∀ l : List Card, (groupByRank l).flatten = l
  | [] => rfl
  | [c] => rfl
  | c :: d :: cs => by
    have ih := groupByRank_flatten (d :: cs)
    rw [groupByRank]
    by_cases h : c.rank = d.rank
    · rw [if_pos h]
      match hg : groupByRank (d :: cs) with
      | [] => exact absurd hg (groupByRank_ne_nil d cs)
      | g :: gs =>
        rw [hg] at ih
        simp only [List.flatten_cons] at ih ⊢
        rw [List.cons_append, ih]
    · rw [if_neg h]
      simp only [List.flatten_cons, ih]
      rfl

theorem groupByRank_map : ∀ l : List Card,
    (groupByRank l).map (List.map Card.rankNat) = natGroupBy (l.map Card.rankNat)
  | [] => rfl
  | [c] => rfl
  | c :: d :: cs => by
    have ih := groupByRank_map (d :: cs)
    rw [groupByRank]
    show _ = natGroupBy (c.rankNat :: d.rankNat :: cs.map Card.rankNat)
    rw [natGroupBy]
    by_cases h : c.rank = d.rank
    · have hn : c.rankNat = d.rankNat := Card.rank_eq_iff.mp h
      rw [if_pos h, if_pos hn]
      match hg : groupByRank (d :: cs) with
      | [] => exact absurd hg (groupByRank_ne_nil d cs)
      | g :: gs =>
        rw [hg] at ih
        have ih2 : natGroupBy (d.rankNat :: cs.map Card.rankNat) =
            (g.map Card.rankNat) :: gs.map (List.map Card.rankNat) := by
          simpa using ih.symm
        rw [ih2]
        simp
    · have hn : ¬ c.rankNat = d.rankNat := fun hh => h (Card.rank_eq_iff.mpr hh)
      rw [if_neg h, if_neg hn]
      simp only [List.map_cons] at ih
      rw [← ih]
      simp

theorem groupSort_map (ts : List (List Card)) :
    (ts.insertionSort groupLenLe).map (List.map Card.rankNat) =
      (ts.map (List.map Card.rankNat)).insertionSort natLenLe := by
  refine List.map_insertionSort groupLenLe natLenLe (List.map Card.rankNat) ts ?_
  intro a ha b hb
  unfold groupLenLe natLenLe
  simp

theorem copyOrder_rank {d1 d2 s1 s2 : List Card}
    (hd : d1.map Card.rankNat = d2.map Card.rankNat)
    (hs : s1.map Card.rankNat = s2.map Card.rankNat) :
    (copyOrder d1 s1).map (List.map Card.rankNat) =
      (copyOrder d2 s2).map (List.map Card.rankNat) := by
  have hld : d1.length = d2.length := by
    have h := congrArg List.length hd
    simpa using h
  have hls : s1.length = s2.length := by
    have h := congrArg List.length hs
    simpa using h
  unfold copyOrder
  rw [hld, hls]
  by_cases h : s2.length ≤ d2.length
  · rw [if_pos h, if_pos h]
    simp only [Option.map_some']
    rw [List.map_append, List.map_append, hs, List.map_drop, List.map_drop, hd]
  · rw [if_neg h, if_neg h]

theorem getElem?_rank {t1 t2 : List (List Card)} (i : Nat)
    (h : t1.map (List.map Card.rankNat) = t2.map (List.map Card.rankNat)) :
    (t1[i]?).map (List.map Card.rankNat) = (t2[i]?).map (List.map Card.rankNat) := by
  rw [← List.getElem?_map, ← List.getElem?_map, h]

theorem sortGroups_map {cs1 cs2 : List Card}
    (h : cs1.map Card.rankNat = cs2.map Card.rankNat) :
    (sortGroups cs1).map (List.map Card.rankNat) =
      (sortGroups cs2).map (List.map Card.rankNat) := by
  unfold sortGroups
  rw [List.map_reverse, List.map_reverse, groupSort_map, groupSort_map,
    groupByRank_map, groupByRank_map, h]

theorem categorizeGroups_rankView {cs1 cs2 : List Card}
    (h : cs1.map Card.rankNat = cs2.map Card.rankNat) :
    rankView (categorizeGroups cs1) = rankView (categorizeGroups cs2) := by
  have htm := sortGroups_map h
  have hflat : (sortGroups cs1).flatten.map Card.rankNat =
      (sortGroups cs2).flatten.map Card.rankNat := by
    rw [List.map_flatten, List.map_flatten, htm]
  have hcopy := copyOrder_rank h hflat
  unfold categorizeGroups
  cases hc1 : copyOrder cs1 (sortGroups cs1).flatten with
  | none =>
    cases hc2 : copyOrder cs2 (sortGroups cs2).flatten with
    | none => rfl
    | some o2 =>
      rw [hc1, hc2] at hcopy
      simp at hcopy
  | some o1 =>
    cases hc2 : copyOrder cs2 (sortGroups cs2).flatten with
    | none =>
      rw [hc1, hc2] at hcopy
      simp at hcopy
    | some o2 =>
      rw [hc1, hc2] at hcopy
      simp only [Option.map_some'] at hcopy
      rw [Option.some_inj] at hcopy
      have h0 := getElem?_rank 0 htm
      have h1 := getElem?_rank 1 htm
      cases hg1 : (sortGroups cs1)[0]? with
      | none =>
        cases hg2 : (sortGroups cs2)[0]? with
        | none => rfl
        | some g02 =>
          rw [hg1, hg2] at h0
          simp at h0
      | some g01 =>
        cases hg2 : (sortGroups cs2)[0]? with
        | none =>
          rw [hg1, hg2] at h0
          simp at h0
        | some g02 =>
          rw [hg1, hg2] at h0
          simp only [Option.map_some'] at h0
          rw [Option.some_inj] at h0
          have hlen0 : g01.length = g02.length := by
            have hh := congrArg List.length h0
            simpa using hh
          dsimp only
          rw [hlen0]
          cases hq1 : (sortGroups cs1)[1]? with
          | none =>
            cases hq2 : (sortGroups cs2)[1]? with
            | none =>
              match g02.length with
              | 0 => simp [rankView, hcopy]
              | 1 => simp [rankView, hcopy]
              | 2 => rfl
              | 3 => rfl
              | 4 => simp [rankView, hcopy]
              | (n + 5) => simp [rankView, hcopy]
            | some g12 =>
              rw [hq1, hq2] at h1
              simp at h1
          | some g11 =>
            cases hq2 : (sortGroups cs2)[1]? with
            | none =>
              rw [hq1, hq2] at h1
              simp at h1
            | some g12 =>
              rw [hq1, hq2] at h1
              simp only [Option.map_some'] at h1
              rw [Option.some_inj] at h1
              have hlen1 : g11.length = g12.length := by
                have hh := congrArg List.length h1
                simpa using hh
              dsimp only
              rw [hlen1]
              match g02.length with
              | 0 => simp [rankView, hcopy]
              | 1 => simp [rankView, hcopy]
              | 2 => simp [rankView, hcopy]
              | 3 => simp [rankView, hcopy]
              | 4 => simp [rankView, hcopy]
              | (n + 5) => simp [rankView, hcopy]

theorem allSameSuit_perm {l1 l2 : List Card} (hp : l1.Perm l2) :
    allSameSuit l1 ↔ allSameSuit l2 := by
  unfold allSameSuit
  constructor <;> intro h x hx y hy
  · exact h x (hp.mem_iff.mpr hx) y (hp.mem_iff.mpr hy)
  · exact h x (hp.mem_iff.mp hx) y (hp.mem_iff.mp hy)

theorem isFlushB_iff (c0 c1 c2 c3 c4 : Card) :
    isFlushB c0 c1 c2 c3 c4 = true ↔ allSameSuit [c0, c1, c2, c3, c4] := by
  unfold isFlushB allSameSuit
  simp only [List.all_cons, List.all_nil, Bool.and_eq_true, decide_eq_true_eq,
    List.mem_cons, List.not_mem_nil, or_false, Bool.and_true]
  constructor
  · intro hc x hx y hy
    have hs : ∀ z : Card, z = c0 ∨ z = c1 ∨ z = c2 ∨ z = c3 ∨ z = c4 → z.suit = c0.suit := by
      rintro z (rfl | rfl | rfl | rfl | rfl)
      · rfl
      · exact hc.2.1
      · exact hc.2.2.1
      · exact hc.2.2.2.1
      · exact hc.2.2.2.2
    rw [hs x hx, hs y hy]
  · intro h
    refine ⟨trivial, ?_, ?_, ?_, ?_⟩ <;> exact h _ (by simp) c0 (by simp)

theorem isFlushB_eq_of_perm {a0 a1 a2 a3 a4 b0 b1 b2 b3 b4 : Card}
    (hp : ([a0, a1, a2, a3, a4] : List Card).Perm [b0, b1, b2, b3, b4]) :
    isFlushB a0 a1 a2 a3 a4 = isFlushB b0 b1 b2 b3 b4 :=
  Bool.coe_iff_coe.mp
    ((isFlushB_iff a0 a1 a2 a3 a4).trans
      ((allSameSuit_perm hp).trans (isFlushB_iff b0 b1 b2 b3 b4).symm))

theorem all_map_rank (u : List Card) (p : Nat → Bool) :
    (u.map Card.rankNat).all p = u.all fun c => p c.rankNat := by
  induction u with
  | nil => rfl
  | cons c cs ih => simp [List.all_cons, ih]

theorem royalB_map {u1 u2 : List Card} (h : u1.map Card.rankNat = u2.map Card.rankNat) :
    royalB u1 = royalB u2 := by
  have hall : ∀ u : List Card,
      royalB u = (u.map Card.rankNat).all fun n => decide (8 ≤ n) := by
    intro u
    unfold royalB
    rw [all_map_rank]
  rw [hall, hall, h]

theorem rankView_categorizeSorted {a0 a1 a2 a3 a4 b0 b1 b2 b3 b4 : Card}
    (hp : ([a0, a1, a2, a3, a4] : List Card).Perm [b0, b1, b2, b3, b4])
    (h0 : a0.rankNat = b0.rankNat) (h1 : a1.rankNat = b1.rankNat)
    (h2 : a2.rankNat = b2.rankNat) (h3 : a3.rankNat = b3.rankNat)
    (h4 : a4.rankNat = b4.rankNat) :
    rankView (categorizeSorted a0 a1 a2 a3 a4) =
      rankView (categorizeSorted b0 b1 b2 b3 b4) := by
  have hsub : subList a0 a1 a2 a3 a4 = subList b0 b1 b2 b3 b4 := by
    unfold subList
    rw [h0, h1, h2, h3, h4]
  have hflush := isFlushB_eq_of_perm hp
  have hmap1 : ([a0, a1, a2, a3, a4] : List Card).map Card.rankNat =
      ([b0, b1, b2, b3, b4] : List Card).map Card.rankNat := by
    simp [h0, h1, h2, h3, h4]
  have hmap2 : ([a1, a2, a3, a4, a0] : List Card).map Card.rankNat =
      ([b1, b2, b3, b4, b0] : List Card).map Card.rankNat := by
    simp [h0, h1, h2, h3, h4]
  unfold categorizeSorted straightRes
  rw [hsub, hflush]
  by_cases hc1 : subList b0 b1 b2 b3 b4 = [4, 3, 2, 1]
  · rw [if_pos hc1, if_pos hc1]
    rw [royalB_map hmap1]
    by_cases hfl : isFlushB b0 b1 b2 b3 b4
    · rw [if_pos hfl, if_pos hfl]
      by_cases hr : royalB [b0, b1, b2, b3, b4]
      · rw [if_pos hr, if_pos hr]
        simp [rankView, hmap1]
      · rw [if_neg hr, if_neg hr]
        simp [rankView, hmap1]
    · rw [if_neg hfl, if_neg hfl]
      simp [rankView, hmap1]
  · rw [if_neg hc1, if_neg hc1]
    by_cases hc2 : subList b0 b1 b2 b3 b4 = [12, 3, 2, 1]
    · rw [if_pos hc2, if_pos hc2]
      rw [royalB_map hmap2]
      by_cases hfl : isFlushB b0 b1 b2 b3 b4
      · rw [if_pos hfl, if_pos hfl]
        by_cases hr : royalB [b1, b2, b3, b4, b0]
        · rw [if_pos hr, if_pos hr]
          simp [rankView, hmap2]
        · rw [if_neg hr, if_neg hr]
          simp [rankView, hmap2]
      · rw [if_neg hfl, if_neg hfl]
        simp [rankView, hmap2]
    · rw [if_neg hc2, if_neg hc2]
      rw [royalB_map hmap1]
      by_cases hfl : isFlushB b0 b1 b2 b3 b4
      · rw [if_pos hfl, if_pos hfl]
        by_cases hr : royalB [b0, b1, b2, b3, b4]
        · rw [if_pos hr, if_pos hr]
          simp [rankView, hmap1]
        · rw [if_neg hr, if_neg hr]
          simp [rankView, hmap1]
      · rw [if_neg hfl, if_neg hfl]
        exact categorizeGroups_rankView hmap1

theorem rankView_sortAndCategorize_perm {l1 l2 : List Card} (hp : l1.Perm l2)
    (hl : l1.length = 5) :
    rankView (sortAndCategorize l1) = rankView (sortAndCategorize l2) := by
  have hl2 : l2.length = 5 := hp.length_eq ▸ hl
  obtain ⟨a0, a1, a2, a3, a4, hA⟩ := length_five_cases ((sortedDesc_length l1).trans hl)
  obtain ⟨b0, b1, b2, b3, b4, hB⟩ := length_five_cases ((sortedDesc_length l2).trans hl2)
  rw [sortAndCategorize_eq_sorted hA, sortAndCategorize_eq_sorted hB]
  have hperm : ([a0, a1, a2, a3, a4] : List Card).Perm [b0, b1, b2, b3, b4] := by
    rw [← hA, ← hB]
    exact (sortedDesc_perm l1).trans (hp.trans (sortedDesc_perm l2).symm)
  have hmaps : ([a0, a1, a2, a3, a4] : List Card).map Card.rankNat =
      ([b0, b1, b2, b3, b4] : List Card).map Card.rankNat := by
    rw [← hA, ← hB]
    refine List.eq_of_perm_of_sorted ?_ (sortedDesc_ranks_sorted l1)
      (sortedDesc_ranks_sorted l2)
    exact ((sortedDesc_perm l1).map _).trans
      ((hp.map _).trans ((sortedDesc_perm l2).map _).symm)
  simp only [List.map_cons, List.map_nil, List.cons.injEq, and_true] at hmaps
  exact rankView_categorizeSorted hperm hmaps.1 hmaps.2.1 hmaps.2.2.1
    hmaps.2.2.2.1 hmaps.2.2.2.2

/-! Totality of the evaluator on five-card inputs: the group accesses
t[0] and t[1] and the copy-back writes are always in bounds. -/

theorem sortGroups_flatten_perm (cs : List Card) : (sortGroups cs).flatten.Perm cs := by
  unfold sortGroups
  have h1 : (((groupByRank cs).insertionSort groupLenLe).reverse).Perm (groupByRank cs) :=
    (List.reverse_perm _).trans (List.perm_insertionSort _ _)
  have h2 := h1.flatten
  rw [groupByRank_flatten] at h2
  exact h2

theorem sortGroups_ne_nil {cs : List Card} (h : cs ≠ []) : sortGroups cs ≠ [] := by
  intro hnil
  have h2 := sortGroups_flatten_perm cs
  rw [hnil] at h2
  simp only [List.flatten_nil] at h2
  exact h (h2.symm.eq_nil)

theorem copyOrder_eq_of_length {dst src : List Card} (h : src.length = dst.length) :
    copyOrder dst src = some src := by
  unfold copyOrder
  rw [if_pos (Nat.le_of_eq h), h, List.drop_length, List.append_nil]

theorem categorizeGroups_eq {cs : List Card} (h : cs.length = 5) :
    ∃ cat, categorizeGroups cs = some (cat, (sortGroups cs).flatten) := by
  have hflat : (sortGroups cs).flatten.length = 5 := by
    rw [(sortGroups_flatten_perm cs).length_eq, h]
  have hcopy : copyOrder cs (sortGroups cs).flatten = some (sortGroups cs).flatten :=
    copyOrder_eq_of_length (by rw [hflat, h])
  have hne : cs ≠ [] := by
    intro hn
    rw [hn] at h
    simp at h
  obtain ⟨g0, ts, hts⟩ := List.exists_cons_of_ne_nil (sortGroups_ne_nil hne)
  unfold categorizeGroups
  rw [hcopy, hts]
  rcases ts with _ | ⟨g1, ts2⟩
  · have hg0 : g0.length = 5 := by
      rw [hts] at hflat
      simpa using hflat
    simp only [List.getElem?_cons_zero, hg0]
    exact ⟨.HighCard, rfl⟩
  · simp only [List.getElem?_cons_zero, List.getElem?_cons_succ]
    match g0.length with
    | 0 => exact ⟨.HighCard, rfl⟩
    | 1 => exact ⟨.HighCard, rfl⟩
    | 2 => exact ⟨if g1.length = 2 then .TwoPair else .Pair, rfl⟩
    | 3 => exact ⟨if g1.length = 2 then .FullHouse else .ThreeOfAKind, rfl⟩
    | 4 => exact ⟨.FourOfAKind, rfl⟩
    | (n + 5) => exact ⟨.HighCard, rfl⟩

theorem straightRes_snd_perm (c0 c1 c2 c3 c4 : Card) :
    ((straightRes c0 c1 c2 c3 c4).2).Perm [c0, c1, c2, c3, c4] := by
  unfold straightRes
  by_cases hc1 : subList c0 c1 c2 c3 c4 = [4, 3, 2, 1]
  · rw [if_pos hc1]
  · rw [if_neg hc1]
    by_cases hc2 : subList c0 c1 c2 c3 c4 = [12, 3, 2, 1]
    · rw [if_pos hc2]
      have h : ([c1, c2, c3, c4, c0] : List Card) = [c1, c2, c3, c4] ++ [c0] := rfl
      rw [h]
      exact (List.perm_append_comm).trans (by simp)
    · rw [if_neg hc2]

theorem straightRes_snd_length (c0 c1 c2 c3 c4 : Card) :
    ((straightRes c0 c1 c2 c3 c4).2).length = 5 := by
  rw [(straightRes_snd_perm c0 c1 c2 c3 c4).length_eq]
  rfl

theorem sortAndCategorize_some {l : List Card} (h : l.length = 5) :
    ∃ cat out, sortAndCategorize l = some (cat, out) ∧ out.Perm l := by
  obtain ⟨a0, a1, a2, a3, a4, hA⟩ := length_five_cases ((sortedDesc_length l).trans h)
  rw [sortAndCategorize_eq_sorted hA]
  have hperm : ([a0, a1, a2, a3, a4] : List Card).Perm l := hA ▸ sortedDesc_perm l
  have hsp := (straightRes_snd_perm a0 a1 a2 a3 a4).trans hperm
  unfold categorizeSorted
  by_cases hfl : isFlushB a0 a1 a2 a3 a4
  · rw [if_pos hfl]
    by_cases hr : royalB (straightRes a0 a1 a2 a3 a4).2
    · rw [if_pos hr]
      exact ⟨_, _, rfl, hsp⟩
    · rw [if_neg hr]
      by_cases hst : (straightRes a0 a1 a2 a3 a4).1
      · rw [if_pos hst]
        exact ⟨_, _, rfl, hsp⟩
      · rw [if_neg hst]
        exact ⟨_, _, rfl, hsp⟩
  · rw [if_neg hfl]
    by_cases hst : (straightRes a0 a1 a2 a3 a4).1
    · rw [if_pos hst]
      exact ⟨_, _, rfl, hsp⟩
    · rw [if_neg hst]
      obtain ⟨cat, hcat⟩ := categorizeGroups_eq (straightRes_snd_length a0 a1 a2 a3 a4)
      refine ⟨cat, _, hcat, ?_⟩
      exact (sortGroups_flatten_perm _).trans hsp

/-! The derived total order on hands. -/

theorem catVal_inj {a b : HandCategory} : a.val = b.val ↔ a = b := by
  constructor
  · revert a b
    decide
  · intro h
    rw [h]

theorem natCompare_swap (x y : Nat) : compare x y = (compare y x).swap := by
  rcases Nat.lt_trichotomy x y with h | h | h
  · rw [Nat.compare_eq_lt.mpr h, Nat.compare_eq_gt.mpr h]
    rfl
  · rw [h, Nat.compare_eq_eq.mpr rfl]
    rfl
  · rw [Nat.compare_eq_gt.mpr h, Nat.compare_eq_lt.mpr h]
    rfl

theorem cardsCmp_self : ∀ l : List Card, cardsCmp l l = .eq
  | [] => rfl
  | a :: xs => by
    unfold cardsCmp cardCmp
    rw [Nat.compare_eq_eq.mpr rfl, cardsCmp_self xs]
    rfl

theorem cardsCmp_swap : ∀ l1 l2 : List Card, cardsCmp l1 l2 = (cardsCmp l2 l1).swap
  | [], [] => rfl
  | [], _ :: _ => rfl
  | _ :: _, [] => rfl
  | a :: xs, b :: ys => by
    unfold cardsCmp cardCmp
    rw [cardsCmp_swap xs ys, natCompare_swap a.rankNat b.rankNat]
    rcases compare b.rankNat a.rankNat with _ | _ | _ <;> rfl

theorem cardsCmp_eq_iff : ∀ l1 l2 : List Card,
    cardsCmp l1 l2 = .eq ↔ l1.map Card.rankNat = l2.map Card.rankNat
  | [], [] => by simp [cardsCmp]
  | [], _ :: _ => by simp [cardsCmp]
  | _ :: _, [] => by simp [cardsCmp]
  | a :: xs, b :: ys => by
    unfold cardsCmp cardCmp
    rcases hab : compare a.rankNat b.rankNat with _ | _ | _
    · simp only [Ordering.then]
      have hne : a.rankNat ≠ b.rankNat := Nat.ne_of_lt (Nat.compare_eq_lt.mp hab)
      simp [hne]
    · have heq : a.rankNat = b.rankNat := Nat.compare_eq_eq.mp hab
      simp only [Ordering.then]
      rw [cardsCmp_eq_iff xs ys]
      simp [heq]
    · simp only [Ordering.then]
      have hne : a.rankNat ≠ b.rankNat :=
        Nat.ne_of_gt (Nat.compare_eq_gt.mp hab)
      simp [hne]

theorem cardsCmp_trans : ∀ l1 l2 l3 : List Card,
    cardsCmp l1 l2 = .lt → cardsCmp l2 l3 = .lt → cardsCmp l1 l3 = .lt
  | [], [], _, h12, _ => by simp [cardsCmp] at h12
  | [], _ :: _, [], _, h23 => by simp [cardsCmp] at h23
  | [], _ :: _, _ :: _, _, _ => rfl
  | _ :: _, [], _, h12, _ => by simp [cardsCmp] at h12
  | _ :: _, _ :: _, [], _, h23 => by simp [cardsCmp] at h23
  | a :: xs, b :: ys, c :: zs, h12, h23 => by
    unfold cardsCmp cardCmp at h12 h23 ⊢
    rcases hab : compare a.rankNat b.rankNat with _ | _ | _ <;>
      rw [hab] at h12 <;>
      rcases hbc : compare b.rankNat c.rankNat with _ | _ | _ <;>
      rw [hbc] at h23 <;>
      simp only [Ordering.then] at h12 h23 ⊢
    · rw [Nat.compare_eq_lt.mpr
        (Nat.lt_trans (Nat.compare_eq_lt.mp hab) (Nat.compare_eq_lt.mp hbc))]
    · have hb := Nat.compare_eq_lt.mp hab
      have hc := Nat.compare_eq_eq.mp hbc
      rw [Nat.compare_eq_lt.mpr (hc ▸ hb)]
    · exact absurd h23 (by simp)
    · have hb := Nat.compare_eq_eq.mp hab
      have hc := Nat.compare_eq_lt.mp hbc
      rw [Nat.compare_eq_lt.mpr (hb ▸ hc)]
    · have hb := Nat.compare_eq_eq.mp hab
      have hc := Nat.compare_eq_eq.mp hbc
      rw [Nat.compare_eq_eq.mpr (hb.trans hc)]
      exact cardsCmp_trans xs ys zs h12 h23
    · exact absurd h23 (by simp)
    · exact absurd h12 (by simp)
    · exact absurd h12 (by simp)
    · exact absurd h12 (by simp)

theorem handCmp_refl (h : Hand) : handCmp h h = .eq := by
  unfold handCmp
  rw [Nat.compare_eq_eq.mpr rfl, cardsCmp_self]
  rfl

theorem handCmp_swap (h1 h2 : Hand) : handCmp h1 h2 = (handCmp h2 h1).swap := by
  unfold handCmp
  rw [natCompare_swap h1.category.val h2.category.val, cardsCmp_swap]
  rcases compare h2.category.val h1.category.val with _ | _ | _ <;> rfl

theorem handCmp_eq_iff (h1 h2 : Hand) :
    handCmp h1 h2 = .eq ↔
      h1.category = h2.category ∧ h1.cards.map Card.rankNat = h2.cards.map Card.rankNat := by
  unfold handCmp
  rcases hc : compare h1.category.val h2.category.val with _ | _ | _
  · simp only [Ordering.then]
    have hne : h1.category ≠ h2.category := by
      intro he
      rw [he] at hc
      rw [Nat.compare_eq_eq.mpr rfl] at hc
      exact absurd hc (by simp)
    simp [hne]
  · have heq : h1.category = h2.category :=
      catVal_inj.mp (Nat.compare_eq_eq.mp hc)
    simp only [Ordering.then]
    rw [cardsCmp_eq_iff]
    simp [heq]
  · simp only [Ordering.then]
    have hne : h1.category ≠ h2.category := by
      intro he
      rw [he] at hc
      rw [Nat.compare_eq_eq.mpr rfl] at hc
      exact absurd hc (by simp)
    simp [hne]

theorem handCmp_trans {h1 h2 h3 : Hand} (h12 : handCmp h1 h2 = .lt)
    (h23 : handCmp h2 h3 = .lt) : handCmp h1 h3 = .lt := by
  unfold handCmp at h12 h23 ⊢
  rcases hab : compare h1.category.val h2.category.val with _ | _ | _ <;>
    rw [hab] at h12 <;>
    rcases hbc : compare h2.category.val h3.category.val with _ | _ | _ <;>
    rw [hbc] at h23 <;>
    simp only [Ordering.then] at h12 h23 ⊢
  · rw [Nat.compare_eq_lt.mpr
      (Nat.lt_trans (Nat.compare_eq_lt.mp hab) (Nat.compare_eq_lt.mp hbc))]
  · have hb := Nat.compare_eq_lt.mp hab
    have hc := Nat.compare_eq_eq.mp hbc
    rw [Nat.compare_eq_lt.mpr (hc ▸ hb)]
  · exact absurd h23 (by simp)
  · have hb := Nat.compare_eq_eq.mp hab
    have hc := Nat.compare_eq_lt.mp hbc
    rw [Nat.compare_eq_lt.mpr (hb ▸ hc)]
  · have hb := Nat.compare_eq_eq.mp hab
    have hc := Nat.compare_eq_eq.mp hbc
    rw [Nat.compare_eq_eq.mpr (hb.trans hc)]
    exact cardsCmp_trans _ _ _ h12 h23
  · exact absurd h23 (by simp)
  · exact absurd h12 (by simp)
  · exact absurd h12 (by simp)
  · exact absurd h12 (by simp)

theorem handCmp_lt_of_cat {h1 h2 : Hand} (h : h1.category.val < h2.category.val) :
    handCmp h1 h2 = .lt := by
  unfold handCmp
  rw [Nat.compare_eq_lt.mpr h]
  rfl

theorem handCmp_of_cat_eq {h1 h2 : Hand} (h : h1.category = h2.category) :
    handCmp h1 h2 = cardsCmp h1.cards h2.cards := by
  unfold handCmp
  rw [h, Nat.compare_eq_eq.mpr rfl]
  rfl

/-! Claim theorems. -/

/-- C6: the derived ordering on Hand is a total order: it is reflexive,
comparison of swapped arguments gives the swapped outcome (hence the
order is antisymmetric and total), it is transitive, a hand of strictly
higher category compares greater than any hand of lower category
regardless of card ranks, two hands of equal category are compared
lexicographically over their card sequences by rank-only card comparison,
and two hands compare equal exactly when category and rank sequence
agree, so suit never affects the result. -/
theorem c6_handCmp_total_order :
    (∀ h : Hand, handCmp h h = .eq) ∧
    (∀ h1 h2 : Hand, handCmp h1 h2 = (handCmp h2 h1).swap) ∧
    (∀ h1 h2 : Hand, handCmp h1 h2 = .eq ↔
      h1.category = h2.category ∧
        h1.cards.map Card.rankNat = h2.cards.map Card.rankNat) ∧
    (∀ h1 h2 h3 : Hand,
      handCmp h1 h2 = .lt → handCmp h2 h3 = .lt → handCmp h1 h3 = .lt) ∧
    (∀ h1 h2 : Hand, h1.category.val < h2.category.val → handCmp h1 h2 = .lt) ∧
    (∀ h1 h2 : Hand, h1.category = h2.category →
      handCmp h1 h2 = cardsCmp h1.cards h2.cards) :=
  ⟨handCmp_refl, handCmp_swap, handCmp_eq_iff,
    fun _ _ _ => handCmp_trans, fun _ _ => handCmp_lt_of_cat,
    fun _ _ => handCmp_of_cat_eq⟩

/-- Witness for C6: the components instantiated at concrete hands, with
every hypothesis discharged by computation. -/
theorem c6_handCmp_total_order_witness :
    handCmp ⟨.Pair, [⟨.Hearts, .Two⟩]⟩ ⟨.Pair, [⟨.Hearts, .Two⟩]⟩ = .eq ∧
    handCmp ⟨.HighCard, [⟨.Hearts, .Ace⟩]⟩ ⟨.Pair, [⟨.Clubs, .Two⟩]⟩ = .lt ∧
    handCmp ⟨.HighCard, []⟩ ⟨.Flush, []⟩ = .lt ∧
    (handCmp ⟨.Pair, [⟨.Hearts, .Two⟩]⟩ ⟨.Pair, [⟨.Spades, .Two⟩]⟩ = .eq) :=
  ⟨c6_handCmp_total_order.1 _,
    c6_handCmp_total_order.2.2.2.2.1 ⟨.HighCard, [⟨.Hearts, .Ace⟩]⟩
      ⟨.Pair, [⟨.Clubs, .Two⟩]⟩ (by decide),
    c6_handCmp_total_order.2.2.2.1 ⟨.HighCard, []⟩ ⟨.Straight, []⟩ ⟨.Flush, []⟩
      (by decide) (by decide),
    (c6_handCmp_total_order.2.2.1 _ _).mpr ⟨rfl, by decide⟩⟩

/-- C9: sort_and_categorize is total and panic-free on every five-card
input, duplicate cards and ranks included: the evaluation always
produces a result, so the in-bounds conditions of the accesses cards[4],
t[0] and t[1], modelled as the fallible steps inside sortAndCategorize,
always hold. -/
theorem c9_sortAndCategorize_total (c1 c2 c3 c4 c5 : Card) :
    (sortAndCategorize [c1, c2, c3, c4, c5]).isSome = true := by
  obtain ⟨cat, out, heq, -⟩ := sortAndCategorize_some (l := [c1, c2, c3, c4, c5]) rfl
  rw [heq]
  rfl

/-- C10: Hand::new is invariant under permutation of its five input
cards: both arrangements yield hands of the same category whose card
sequences agree position by position under rank-only card equality, and
the two hands compare equal. -/
theorem c10_handNew_perm_invariant {l1 l2 : List Card} (hp : l1.Perm l2)
    (hl : l1.length = 5) :
    ∃ h1 h2 : Hand, handNew l1 = some h1 ∧ handNew l2 = some h2 ∧
      h1.category = h2.category ∧
      h1.cards.map Card.rankNat = h2.cards.map Card.rankNat ∧
      handCmp h1 h2 = .eq := by
  obtain ⟨cat1, out1, he1, -⟩ := sortAndCategorize_some hl
  obtain ⟨cat2, out2, he2, -⟩ := sortAndCategorize_some (hp.length_eq ▸ hl)
  have hv := rankView_sortAndCategorize_perm hp hl
  rw [he1, he2] at hv
  simp only [rankView, Option.map_some'] at hv
  rw [Option.some_inj] at hv
  have hcat : cat1 = cat2 := congrArg Prod.fst hv
  have hmap : out1.map Card.rankNat = out2.map Card.rankNat := congrArg Prod.snd hv
  refine ⟨⟨cat1, out1⟩, ⟨cat2, out2⟩, ?_, ?_, hcat, hmap,
    (handCmp_eq_iff _ _).mpr ⟨hcat, hmap⟩⟩
  · unfold handNew
    rw [he1]
    rfl
  · unfold handNew
    rw [he2]
    rfl

/-- Witness for C10 at a concrete pair of arrangements of one hand. -/
theorem c10_handNew_perm_invariant_witness :
    ∃ h1 h2 : Hand,
      handNew [⟨.Hearts, .Two⟩, ⟨.Spades, .Seven⟩, ⟨.Hearts, .Four⟩,
        ⟨.Clubs, .Seven⟩, ⟨.Hearts, .Five⟩] = some h1 ∧
      handNew [⟨.Hearts, .Five⟩, ⟨.Clubs, .Seven⟩, ⟨.Hearts, .Four⟩,
        ⟨.Spades, .Seven⟩, ⟨.Hearts, .Two⟩] = some h2 ∧
      h1.category = h2.category ∧
      h1.cards.map Card.rankNat = h2.cards.map Card.rankNat ∧
      handCmp h1 h2 = .eq :=
  c10_handNew_perm_invariant (by decide) (by decide)

/-- C8: categorization is idempotent: applying Hand::new to the card
sequence it produced yields the same category and the same card sequence
again, sequences compared elementwise by the program's own rank-only
card equality, so no further reordering happens. -/
theorem c8_handNew_idempotent (c1 c2 c3 c4 c5 : Card) :
    ∃ h h2 : Hand, handNew [c1, c2, c3, c4, c5] = some h ∧
      handNew h.cards = some h2 ∧ h2.category = h.category ∧
      h2.cards.map Card.rankNat = h.cards.map Card.rankNat := by
  obtain ⟨cat, out, he, hperm⟩ :=
    sortAndCategorize_some (l := [c1, c2, c3, c4, c5]) rfl
  have hl5 : out.length = 5 := by
    rw [hperm.length_eq]
    rfl
  obtain ⟨cat2, out2, he2, -⟩ := sortAndCategorize_some hl5
  have hv := rankView_sortAndCategorize_perm hperm hl5
  rw [he, he2] at hv
  simp only [rankView, Option.map_some'] at hv
  rw [Option.some_inj] at hv
  refine ⟨⟨cat, out⟩, ⟨cat2, out2⟩, ?_, ?_, (congrArg Prod.fst hv).symm.symm, ?_⟩
  · unfold handNew
    rw [he]
    rfl
  · unfold handNew
    rw [he2]
    rfl
  · exact congrArg Prod.snd hv

/-- C1: evaluation at the two-pair hand H4, D5, S5, CJ, HJ: the code
sorts the rank groups by size alone, so the two equal-size pair groups
come out in ascending rank order, Fives (ordinal 3) before Jacks
(ordinal 9), where the specified descending tie-break demands the Jacks
first, that is [9, 9, 3, 3, 2]. -/
theorem c1_equal_size_groups_ascending :
    rankView (sortAndCategorize
      [⟨.Hearts, .Four⟩, ⟨.Diamonds, .Five⟩, ⟨.Spades, .Five⟩,
        ⟨.Clubs, .Jack⟩, ⟨.Hearts, .Jack⟩]) =
      some (.TwoPair, [3, 3, 9, 9, 2]) := by
  decide

/-- C2: form_best_hand computes nothing: for every community and hole
input it returns unit, so it never produces any hand, let alone the
maximum hand over the 5-card subsets of the pool. -/
theorem c2_form_best_hand_returns_nothing (community hole : List Card) :
    form_best_hand community hole = () := rfl

/-- C3: form_best_hand over an insufficient pool, here a two-card pool
with no community cards, returns unit like on every input; its signature
has no absence value, so it cannot return None. -/
theorem c3_form_best_hand_no_absence_value :
    form_best_hand [] [⟨.Hearts, .Ace⟩, ⟨.Spades, .Ace⟩] = () := rfl

/-- The shape of the sorted five-card list: its five elements, their
permutation relation to the input and the descending adjacent rank
bounds. -/
theorem sorted_shape (c1 c2 c3 c4 c5 : Card) :
    ∃ a0 a1 a2 a3 a4 : Card,
      sortedDesc [c1, c2, c3, c4, c5] = [a0, a1, a2, a3, a4] ∧
      ([a0, a1, a2, a3, a4] : List Card).Perm [c1, c2, c3, c4, c5] ∧
      a1.rankNat ≤ a0.rankNat ∧ a2.rankNat ≤ a1.rankNat ∧
      a3.rankNat ≤ a2.rankNat ∧ a4.rankNat ≤ a3.rankNat := by
  obtain ⟨a0, a1, a2, a3, a4, hA⟩ :=
    length_five_cases ((sortedDesc_length [c1, c2, c3, c4, c5]).trans rfl)
  have hs := sortedDesc_sorted [c1, c2, c3, c4, c5]
  rw [hA] at hs
  obtain ⟨h0, hs1⟩ := List.pairwise_cons.mp hs
  obtain ⟨h1, hs2⟩ := List.pairwise_cons.mp hs1
  obtain ⟨h2, hs3⟩ := List.pairwise_cons.mp hs2
  obtain ⟨h3, -⟩ := List.pairwise_cons.mp hs3
  exact ⟨a0, a1, a2, a3, a4, hA, hA ▸ sortedDesc_perm _,
    h0 a1 (by simp), h1 a2 (by simp), h2 a3 (by simp), h3 a4 (by simp)⟩

/-- C5: every hand with ranks Ace, Five, Four, Three, Two that is not all
one suit is categorized as Straight, with the Ace rotated to the end so
the Five (ordinal 3) is the most significant card, and the resulting
hand compares strictly below the Six-high straight and below every
Straight hand whose leading card outranks the Five. -/
theorem c5_wheel_straight (c1 c2 c3 c4 c5 : Card)
    (hr : (([c1, c2, c3, c4, c5] : List Card).map Card.rankNat).Perm [12, 3, 2, 1, 0])
    (hsuit : ¬ allSameSuit [c1, c2, c3, c4, c5]) :
    ∃ h : Hand, handNew [c1, c2, c3, c4, c5] = some h ∧
      h.category = .Straight ∧
      h.cards.map Card.rankNat = [3, 2, 1, 0, 12] ∧
      (∀ h6 : Hand,
        handNew [⟨.Hearts, .Two⟩, ⟨.Hearts, .Six⟩, ⟨.Spades, .Five⟩,
          ⟨.Hearts, .Four⟩, ⟨.Hearts, .Three⟩] = some h6 → handCmp h h6 = .lt) ∧
      (∀ h2 : Hand, h2.category = .Straight →
        ∀ d rest, h2.cards = d :: rest → 3 < d.rankNat → handCmp h h2 = .lt) := by
  obtain ⟨a0, a1, a2, a3, a4, hA, hperm, h01, h12, h23, h34⟩ := sorted_shape c1 c2 c3 c4 c5
  have hm : (sortedDesc [c1, c2, c3, c4, c5]).map Card.rankNat = [12, 3, 2, 1, 0] :=
    sortedDesc_ranks_eq_of_perm hr (by decide)
  rw [hA] at hm
  simp only [List.map_cons, List.map_nil, List.cons.injEq, and_true] at hm
  obtain ⟨hr0, hr1, hr2, hr3, hr4⟩ := hm
  have hsub2 : subList a0 a1 a2 a3 a4 = [12, 3, 2, 1] := by
    unfold subList
    rw [hr0, hr1, hr2, hr3, hr4]
    decide
  have hsub1 : ¬ subList a0 a1 a2 a3 a4 = [4, 3, 2, 1] := by
    rw [hsub2]
    decide
  have hfl : ¬ isFlushB a0 a1 a2 a3 a4 = true := by
    intro hb
    exact hsuit ((allSameSuit_perm hperm).mp ((isFlushB_iff a0 a1 a2 a3 a4).mp hb))
  have hsr : straightRes a0 a1 a2 a3 a4 = (true, [a1, a2, a3, a4, a0]) := by
    unfold straightRes
    rw [if_neg hsub1, if_pos hsub2]
  have hgen : ∀ h2 : Hand, h2.category = .Straight →
      ∀ d rest, h2.cards = d :: rest → 3 < d.rankNat →
      handCmp ⟨.Straight, [a1, a2, a3, a4, a0]⟩ h2 = .lt := by
    intro h2 hcat d rest hcards hd
    have hcc : (⟨.Straight, [a1, a2, a3, a4, a0]⟩ : Hand).category = h2.category := by
      rw [hcat]
    rw [handCmp_of_cat_eq hcc, hcards]
    show (cardCmp a1 d).then _ = .lt
    unfold cardCmp
    rw [hr1, Nat.compare_eq_lt.mpr hd]
    rfl
  have hout : handNew [c1, c2, c3, c4, c5] =
      some ⟨.Straight, [a1, a2, a3, a4, a0]⟩ := by
    unfold handNew
    rw [sortAndCategorize_eq_sorted hA]
    unfold categorizeSorted
    rw [hsr, if_neg hfl]
    rfl
  refine ⟨⟨.Straight, [a1, a2, a3, a4, a0]⟩, hout, rfl, ?_, ?_, hgen⟩
  · simp only [List.map_cons, List.map_nil, hr0, hr1, hr2, hr3, hr4]
  · intro h6 hh6
    have hcomp : handNew [⟨.Hearts, .Two⟩, ⟨.Hearts, .Six⟩, ⟨.Spades, .Five⟩,
        ⟨.Hearts, .Four⟩, ⟨.Hearts, .Three⟩] =
        some ⟨.Straight, [⟨.Hearts, .Six⟩, ⟨.Spades, .Five⟩, ⟨.Hearts, .Four⟩,
          ⟨.Hearts, .Three⟩, ⟨.Hearts, .Two⟩]⟩ := by decide
    rw [hcomp, Option.some_inj] at hh6
    rw [← hh6]
    exact hgen _ rfl _ _ rfl (by decide)

/-- Witness for C5 at the concrete wheel hand HA, C4, S5, H3, H2. -/
theorem c5_wheel_straight_witness :
    ∃ h : Hand, handNew [⟨.Hearts, .Ace⟩, ⟨.Clubs, .Four⟩, ⟨.Spades, .Five⟩,
        ⟨.Hearts, .Three⟩, ⟨.Hearts, .Two⟩] = some h ∧
      h.category = .Straight ∧
      h.cards.map Card.rankNat = [3, 2, 1, 0, 12] ∧
      (∀ h6 : Hand,
        handNew [⟨.Hearts, .Two⟩, ⟨.Hearts, .Six⟩, ⟨.Spades, .Five⟩,
          ⟨.Hearts, .Four⟩, ⟨.Hearts, .Three⟩] = some h6 → handCmp h h6 = .lt) ∧
      (∀ h2 : Hand, h2.category = .Straight →
        ∀ d rest, h2.cards = d :: rest → 3 < d.rankNat → handCmp h h2 = .lt) :=
  c5_wheel_straight ⟨.Hearts, .Ace⟩ ⟨.Clubs, .Four⟩ ⟨.Spades, .Five⟩
    ⟨.Hearts, .Three⟩ ⟨.Hearts, .Two⟩ (by decide) (by decide)

theorem pairwise_natGe_five {r0 r1 r2 r3 r4 : Nat} (g01 : r1 ≤ r0) (g12 : r2 ≤ r1)
    (g23 : r3 ≤ r2) (g34 : r4 ≤ r3) :
    ([r0, r1, r2, r3, r4] : List Nat).Pairwise natGe := by
  unfold natGe
  refine List.Pairwise.cons ?_ (List.Pairwise.cons ?_ (List.Pairwise.cons ?_
    (List.Pairwise.cons ?_ (List.pairwise_singleton _ _))))
  · intro x hx
    simp only [List.mem_cons, List.not_mem_nil, or_false, List.mem_singleton] at hx
    rcases hx with rfl | rfl | rfl | rfl <;> omega
  · intro x hx
    simp only [List.mem_cons, List.not_mem_nil, or_false, List.mem_singleton] at hx
    rcases hx with rfl | rfl | rfl <;> omega
  · intro x hx
    simp only [List.mem_cons, List.not_mem_nil, or_false, List.mem_singleton] at hx
    rcases hx with rfl | rfl <;> omega
  · intro x hx
    simp only [List.mem_cons, List.not_mem_nil, or_false, List.mem_singleton] at hx
    rcases hx with rfl
    omega

theorem rank_le_12 (c : Card) : c.rankNat ≤ 12 :=
  CardRank.val_le_12 c.rank

/-- C4: for five cards of one suit with pairwise distinct ranks, the
assigned category is RoyalFlush exactly when the ranks are Ten through
Ace, any other same-suit run is StraightFlush, and any same-suit
non-run is Flush. -/
theorem c4_flush_categories (c1 c2 c3 c4 c5 : Card)
    (hsuit : allSameSuit [c1, c2, c3, c4, c5])
    (hnd : (([c1, c2, c3, c4, c5] : List Card).map Card.rankNat).Nodup) :
    (handCategoryOf [c1, c2, c3, c4, c5] = some .RoyalFlush ↔
      (([c1, c2, c3, c4, c5] : List Card).map Card.rankNat).Perm [12, 11, 10, 9, 8]) ∧
    (isRun [c1, c2, c3, c4, c5] →
      ¬ (([c1, c2, c3, c4, c5] : List Card).map Card.rankNat).Perm [12, 11, 10, 9, 8] →
      handCategoryOf [c1, c2, c3, c4, c5] = some .StraightFlush) ∧
    (¬ isRun [c1, c2, c3, c4, c5] →
      handCategoryOf [c1, c2, c3, c4, c5] = some .Flush) := by
  obtain ⟨a0, a1, a2, a3, a4, hA, hperm, h01, h12, h23, h34⟩ := sorted_shape c1 c2 c3 c4 c5
  have hIn : (([c1, c2, c3, c4, c5] : List Card).map Card.rankNat).Perm
      [a0.rankNat, a1.rankNat, a2.rankNat, a3.rankNat, a4.rankNat] := by
    have h := (hperm.map Card.rankNat).symm
    simpa using h
  have hpw : ([a0.rankNat, a1.rankNat, a2.rankNat, a3.rankNat, a4.rankNat] :
      List Nat).Pairwise natGe := pairwise_natGe_five h01 h12 h23 h34
  have hndS : ([a0.rankNat, a1.rankNat, a2.rankNat, a3.rankNat, a4.rankNat] :
      List Nat).Nodup := (hIn.nodup_iff).mp hnd
  simp only [List.nodup_cons, List.mem_cons, List.not_mem_nil, or_false,
    List.mem_singleton, not_or, List.nodup_nil, and_true] at hndS
  obtain ⟨⟨n01, n02, n03, n04⟩, ⟨n12, n13, n14⟩, ⟨n23, n24⟩, n34⟩ := hndS
  have hb0 := rank_le_12 a0
  have hb4 := rank_le_12 a4
  have hfl : isFlushB a0 a1 a2 a3 a4 = true :=
    (isFlushB_iff a0 a1 a2 a3 a4).mpr ((allSameSuit_perm hperm).mpr hsuit)
  by_cases hlow : 8 ≤ a4.rankNat
  · have e0 : a0.rankNat = 12 := by omega
    have e1 : a1.rankNat = 11 := by omega
    have e2 : a2.rankNat = 10 := by omega
    have e3 : a3.rankNat = 9 := by omega
    have e4 : a4.rankNat = 8 := by omega
    have hsub : subList a0 a1 a2 a3 a4 = [4, 3, 2, 1] := by
      unfold subList
      rw [e0, e1, e2, e3, e4]
      decide
    have hsr : straightRes a0 a1 a2 a3 a4 = (true, [a0, a1, a2, a3, a4]) := by
      unfold straightRes
      rw [if_pos hsub]
    have hroyal : royalB [a0, a1, a2, a3, a4] = true := by
      simp only [royalB, List.all_cons, List.all_nil, Bool.and_eq_true,
        decide_eq_true_eq, Bool.and_true]
      omega
    have hcat : handCategoryOf [c1, c2, c3, c4, c5] = some .RoyalFlush := by
      unfold handCategoryOf
      rw [sortAndCategorize_eq_sorted hA]
      unfold categorizeSorted
      rw [hsr, if_pos hfl]
      dsimp only
      rw [if_pos hroyal]
      rfl
    have hperm12 : (([c1, c2, c3, c4, c5] : List Card).map Card.rankNat).Perm
        [12, 11, 10, 9, 8] := by
      have hv : ([a0.rankNat, a1.rankNat, a2.rankNat, a3.rankNat, a4.rankNat] :
          List Nat) = [12, 11, 10, 9, 8] := by
        rw [e0, e1, e2, e3, e4]
      rw [← hv]
      exact hIn
    refine ⟨iff_of_true hcat hperm12, fun _ hnp => absurd hperm12 hnp, fun hnr => ?_⟩
    exfalso
    refine hnr (Or.inl ⟨8, by omega, ?_⟩)
    have hlist : ([8 + 4, 8 + 3, 8 + 2, 8 + 1, 8] : List Nat) = [12, 11, 10, 9, 8] := by
      norm_num
    rw [hlist]
    exact hperm12
  · have hryA : ¬ royalB [a0, a1, a2, a3, a4] = true := by
      simp only [royalB, List.all_cons, List.all_nil, Bool.and_eq_true,
        decide_eq_true_eq, Bool.and_true]
      omega
    have hryB : ¬ royalB [a1, a2, a3, a4, a0] = true := by
      simp only [royalB, List.all_cons, List.all_nil, Bool.and_eq_true,
        decide_eq_true_eq, Bool.and_true]
      omega
    have hnotroyal : ¬ handCategoryOf [c1, c2, c3, c4, c5] = some .RoyalFlush := by
      unfold handCategoryOf
      rw [sortAndCategorize_eq_sorted hA]
      unfold categorizeSorted
      rw [if_pos hfl]
      unfold straightRes
      by_cases hs1 : subList a0 a1 a2 a3 a4 = [4, 3, 2, 1]
      · rw [if_pos hs1]
        dsimp only
        rw [if_neg hryA]
        by_cases hb : (true : Bool) = true
        · simp
        · simp at hb
      · rw [if_neg hs1]
        by_cases hs2 : subList a0 a1 a2 a3 a4 = [12, 3, 2, 1]
        · rw [if_pos hs2]
          dsimp only
          rw [if_neg hryB]
          simp
        · rw [if_neg hs2]
          dsimp only
          rw [if_neg hryA]
          simp
    have hnperm : ¬ (([c1, c2, c3, c4, c5] : List Card).map Card.rankNat).Perm
        [12, 11, 10, 9, 8] := by
      intro hp12
      have hv := List.eq_of_perm_of_sorted (hIn.symm.trans hp12) hpw (by decide)
      simp only [List.cons.injEq, and_true] at hv
      omega
    refine ⟨iff_of_false hnotroyal hnperm, fun hrun hnp => ?_, fun hnr => ?_⟩
    · rcases hrun with ⟨k, hk9, hpk⟩ | hwheel
      · have hv := List.eq_of_perm_of_sorted (hIn.symm.trans hpk) hpw
          (pairwise_natGe_five (by omega) (by omega) (by omega) (by omega))
        simp only [List.cons.injEq, and_true] at hv
        obtain ⟨e0, e1, e2, e3, e4⟩ := hv
        have hsub : subList a0 a1 a2 a3 a4 = [4, 3, 2, 1] := by
          unfold subList
          rw [e0, e1, e2, e3, e4]
          simp only [List.cons.injEq, and_true]
          refine ⟨?_, ?_, ?_, ?_⟩ <;> omega
        have hsr : straightRes a0 a1 a2 a3 a4 = (true, [a0, a1, a2, a3, a4]) := by
          unfold straightRes
          rw [if_pos hsub]
        unfold handCategoryOf
        rw [sortAndCategorize_eq_sorted hA]
        unfold categorizeSorted
        rw [hsr, if_pos hfl]
        dsimp only
        rw [if_neg hryA]
        rfl
      · have hv := List.eq_of_perm_of_sorted (hIn.symm.trans hwheel) hpw (by decide)
        simp only [List.cons.injEq, and_true] at hv
        obtain ⟨e0, e1, e2, e3, e4⟩ := hv
        have hsub2 : subList a0 a1 a2 a3 a4 = [12, 3, 2, 1] := by
          unfold subList
          rw [e0, e1, e2, e3, e4]
          decide
        have hsub1 : ¬ subList a0 a1 a2 a3 a4 = [4, 3, 2, 1] := by
          rw [hsub2]
          decide
        have hsr : straightRes a0 a1 a2 a3 a4 = (true, [a1, a2, a3, a4, a0]) := by
          unfold straightRes
          rw [if_neg hsub1, if_pos hsub2]
        unfold handCategoryOf
        rw [sortAndCategorize_eq_sorted hA]
        unfold categorizeSorted
        rw [hsr, if_pos hfl]
        dsimp only
        rw [if_neg hryB]
        rfl
    · by_cases hs1 : subList a0 a1 a2 a3 a4 = [4, 3, 2, 1]
      · exfalso
        unfold subList at hs1
        simp only [List.cons.injEq, and_true] at hs1
        obtain ⟨f0, f1, f2, f3⟩ := hs1
        refine hnr (Or.inl ⟨a4.rankNat, by omega, ?_⟩)
        have hv : ([a0.rankNat, a1.rankNat, a2.rankNat, a3.rankNat, a4.rankNat] :
            List Nat) = [a4.rankNat + 4, a4.rankNat + 3, a4.rankNat + 2,
              a4.rankNat + 1, a4.rankNat] := by
          simp only [List.cons.injEq, and_true]
          refine ⟨?_, ?_, ?_, ?_⟩ <;> omega
        rw [← hv]
        exact hIn
      · by_cases hs2 : subList a0 a1 a2 a3 a4 = [12, 3, 2, 1]
        · exfalso
          unfold subList at hs2
          simp only [List.cons.injEq, and_true] at hs2
          obtain ⟨f0, f1, f2, f3⟩ := hs2
          refine hnr (Or.inr ?_)
          have hv : ([a0.rankNat, a1.rankNat, a2.rankNat, a3.rankNat, a4.rankNat] :
              List Nat) = [12, 3, 2, 1, 0] := by
            simp only [List.cons.injEq, and_true]
            refine ⟨?_, ?_, ?_, ?_, ?_⟩ <;> omega
          rw [← hv]
          exact hIn
        · have hsr : straightRes a0 a1 a2 a3 a4 = (false, [a0, a1, a2, a3, a4]) := by
            unfold straightRes
            rw [if_neg hs1, if_neg hs2]
          unfold handCategoryOf
          rw [sortAndCategorize_eq_sorted hA]
          unfold categorizeSorted
          rw [hsr, if_pos hfl]
          dsimp only
          rw [if_neg hryA]
          simp

/-- Witness for C4 at the royal hand HJ, HT, HA, HK, HQ. -/
theorem c4_flush_categories_witness :
    handCategoryOf [⟨.Hearts, .Jack⟩, ⟨.Hearts, .Ten⟩, ⟨.Hearts, .Ace⟩,
      ⟨.Hearts, .King⟩, ⟨.Hearts, .Queen⟩] = some .RoyalFlush :=
  (c4_flush_categories ⟨.Hearts, .Jack⟩ ⟨.Hearts, .Ten⟩ ⟨.Hearts, .Ace⟩
    ⟨.Hearts, .King⟩ ⟨.Hearts, .Queen⟩ (by decide) (by decide)).1.mpr (by decide)

theorem natCountsDesc_perm {r1 r2 : List Nat} (h : r1.Perm r2) :
    natCountsDesc r1 = natCountsDesc r2 := by
  unfold natCountsDesc
  have hd : r1.dedup.Perm r2.dedup := h.dedup
  have hmapped : (r1.dedup.map fun r => r1.count r).Perm
      (r2.dedup.map fun r => r2.count r) := by
    have h1 := hd.map fun r => r1.count r
    have h2 : (r2.dedup.map fun r => r1.count r) = r2.dedup.map fun r => r2.count r :=
      List.map_congr_left fun r _ => h.count_eq r
    rw [h2] at h1
    exact h1
  refine List.eq_of_perm_of_sorted ?_ (List.sorted_insertionSort natGe _)
    (List.sorted_insertionSort natGe _)
  exact (List.perm_insertionSort natGe _).trans
    (hmapped.trans (List.perm_insertionSort natGe _).symm)

theorem straightRes_false_of_not_run {l : List Card} {a0 a1 a2 a3 a4 : Card}
    (hIn : (l.map Card.rankNat).Perm
      [a0.rankNat, a1.rankNat, a2.rankNat, a3.rankNat, a4.rankNat])
    (hb0 : a0.rankNat ≤ 12)
    (hnr : ¬ isRun l) :
    straightRes a0 a1 a2 a3 a4 = (false, [a0, a1, a2, a3, a4]) := by
  by_cases hs1 : subList a0 a1 a2 a3 a4 = [4, 3, 2, 1]
  · exfalso
    unfold subList at hs1
    simp only [List.cons.injEq, and_true] at hs1
    obtain ⟨f0, f1, f2, f3⟩ := hs1
    refine hnr (Or.inl ⟨a4.rankNat, by omega, ?_⟩)
    have hv : ([a0.rankNat, a1.rankNat, a2.rankNat, a3.rankNat, a4.rankNat] :
        List Nat) = [a4.rankNat + 4, a4.rankNat + 3, a4.rankNat + 2,
          a4.rankNat + 1, a4.rankNat] := by
      simp only [List.cons.injEq, and_true]
      refine ⟨?_, ?_, ?_, ?_⟩ <;> omega
    rw [← hv]
    exact hIn
  · by_cases hs2 : subList a0 a1 a2 a3 a4 = [12, 3, 2, 1]
    · exfalso
      unfold subList at hs2
      simp only [List.cons.injEq, and_true] at hs2
      obtain ⟨f0, f1, f2, f3⟩ := hs2
      refine hnr (Or.inr ?_)
      have hv : ([a0.rankNat, a1.rankNat, a2.rankNat, a3.rankNat, a4.rankNat] :
          List Nat) = [12, 3, 2, 1, 0] := by
        simp only [List.cons.injEq, and_true]
        refine ⟨?_, ?_, ?_, ?_, ?_⟩ <;> omega
      rw [← hv]
      exact hIn
    · unfold straightRes
      rw [if_neg hs1, if_neg hs2]

theorem natCounts_xxxxx (x : Nat)  :
    natCountsDesc ([x, x, x, x, x] : List Nat) = [5] := by
  unfold natCountsDesc
  have hd : ([x, x, x, x, x] : List Nat).dedup = [x] := by
    rw [List.dedup_cons_of_mem (by simp),
      List.dedup_cons_of_mem (by simp),
      List.dedup_cons_of_mem (by simp),
      List.dedup_cons_of_mem (by simp),
      List.dedup_cons_of_not_mem (by simp)]
    simp
  rw [hd]
  simp only [List.map_cons, List.map_nil]
  have cx : ([x, x, x, x, x] : List Nat).count x = 5 := by
    simp [List.count_cons]
  rw [cx]
  decide

theorem natCounts_xxxxy (x y : Nat) (hxy : x ≠ y) :
    natCountsDesc ([x, x, x, x, y] : List Nat) = [4, 1] := by
  unfold natCountsDesc
  have hd : ([x, x, x, x, y] : List Nat).dedup = [x, y] := by
    rw [List.dedup_cons_of_mem (by simp),
      List.dedup_cons_of_mem (by simp),
      List.dedup_cons_of_mem (by simp),
      List.dedup_cons_of_not_mem (by simp [hxy]),
      List.dedup_cons_of_not_mem (by simp)]
    simp
  rw [hd]
  simp only [List.map_cons, List.map_nil]
  have cx : ([x, x, x, x, y] : List Nat).count x = 4 := by
    simp [List.count_cons, Ne.symm hxy, hxy]
  have cy : ([x, x, x, x, y] : List Nat).count y = 1 := by
    simp [List.count_cons, Ne.symm hxy, hxy]
  rw [cx, cy]
  decide

theorem natCounts_xxxyy (x y : Nat) (hxy : x ≠ y) :
    natCountsDesc ([x, x, x, y, y] : List Nat) = [3, 2] := by
  unfold natCountsDesc
  have hd : ([x, x, x, y, y] : List Nat).dedup = [x, y] := by
    rw [List.dedup_cons_of_mem (by simp),
      List.dedup_cons_of_mem (by simp),
      List.dedup_cons_of_not_mem (by simp [hxy]),
      List.dedup_cons_of_mem (by simp),
      List.dedup_cons_of_not_mem (by simp)]
    simp
  rw [hd]
  simp only [List.map_cons, List.map_nil]
  have cx : ([x, x, x, y, y] : List Nat).count x = 3 := by
    simp [List.count_cons, Ne.symm hxy, hxy]
  have cy : ([x, x, x, y, y] : List Nat).count y = 2 := by
    simp [List.count_cons, Ne.symm hxy, hxy]
  rw [cx, cy]
  decide

theorem natCounts_xxxyz (x y z : Nat) (hxy : x ≠ y) (hxz : x ≠ z) (hyz : y ≠ z) :
    natCountsDesc ([x, x, x, y, z] : List Nat) = [3, 1, 1] := by
  unfold natCountsDesc
  have hd : ([x, x, x, y, z] : List Nat).dedup = [x, y, z] := by
    rw [List.dedup_cons_of_mem (by simp),
      List.dedup_cons_of_mem (by simp),
      List.dedup_cons_of_not_mem (by simp [hxy, hxz]),
      List.dedup_cons_of_not_mem (by simp [hyz]),
      List.dedup_cons_of_not_mem (by simp)]
    simp
  rw [hd]
  simp only [List.map_cons, List.map_nil]
  have cx : ([x, x, x, y, z] : List Nat).count x = 3 := by
    simp [List.count_cons, Ne.symm hxy, Ne.symm hxz, Ne.symm hyz, hxy, hxz, hyz]
  have cy : ([x, x, x, y, z] : List Nat).count y = 1 := by
    simp [List.count_cons, Ne.symm hxy, Ne.symm hxz, Ne.symm hyz, hxy, hxz, hyz]
  have cz : ([x, x, x, y, z] : List Nat).count z = 1 := by
    simp [List.count_cons, Ne.symm hxy, Ne.symm hxz, Ne.symm hyz, hxy, hxz, hyz]
  rw [cx, cy, cz]
  decide

theorem natCounts_xxyyy (x y : Nat) (hxy : x ≠ y) :
    natCountsDesc ([x, x, y, y, y] : List Nat) = [3, 2] := by
  unfold natCountsDesc
  have hd : ([x, x, y, y, y] : List Nat).dedup = [x, y] := by
    rw [List.dedup_cons_of_mem (by simp),
      List.dedup_cons_of_not_mem (by simp [hxy]),
      List.dedup_cons_of_mem (by simp),
      List.dedup_cons_of_mem (by simp),
      List.dedup_cons_of_not_mem (by simp)]
    simp
  rw [hd]
  simp only [List.map_cons, List.map_nil]
  have cx : ([x, x, y, y, y] : List Nat).count x = 2 := by
    simp [List.count_cons, Ne.symm hxy, hxy]
  have cy : ([x, x, y, y, y] : List Nat).count y = 3 := by
    simp [List.count_cons, Ne.symm hxy, hxy]
  rw [cx, cy]
  decide

theorem natCounts_xxyyz (x y z : Nat) (hxy : x ≠ y) (hxz : x ≠ z) (hyz : y ≠ z) :
    natCountsDesc ([x, x, y, y, z] : List Nat) = [2, 2, 1] := by
  unfold natCountsDesc
  have hd : ([x, x, y, y, z] : List Nat).dedup = [x, y, z] := by
    rw [List.dedup_cons_of_mem (by simp),
      List.dedup_cons_of_not_mem (by simp [hxy, hxz]),
      List.dedup_cons_of_mem (by simp),
      List.dedup_cons_of_not_mem (by simp [hyz]),
      List.dedup_cons_of_not_mem (by simp)]
    simp
  rw [hd]
  simp only [List.map_cons, List.map_nil]
  have cx : ([x, x, y, y, z] : List Nat).count x = 2 := by
    simp [List.count_cons, Ne.symm hxy, Ne.symm hxz, Ne.symm hyz, hxy, hxz, hyz]
  have cy : ([x, x, y, y, z] : List Nat).count y = 2 := by
    simp [List.count_cons, Ne.symm hxy, Ne.symm hxz, Ne.symm hyz, hxy, hxz, hyz]
  have cz : ([x, x, y, y, z] : List Nat).count z = 1 := by
    simp [List.count_cons, Ne.symm hxy, Ne.symm hxz, Ne.symm hyz, hxy, hxz, hyz]
  rw [cx, cy, cz]
  decide

theorem natCounts_xxyzz (x y z : Nat) (hxy : x ≠ y) (hxz : x ≠ z) (hyz : y ≠ z) :
    natCountsDesc ([x, x, y, z, z] : List Nat) = [2, 2, 1] := by
  unfold natCountsDesc
  have hd : ([x, x, y, z, z] : List Nat).dedup = [x, y, z] := by
    rw [List.dedup_cons_of_mem (by simp),
      List.dedup_cons_of_not_mem (by simp [hxy, hxz]),
      List.dedup_cons_of_not_mem (by simp [hyz]),
      List.dedup_cons_of_mem (by simp),
      List.dedup_cons_of_not_mem (by simp)]
    simp
  rw [hd]
  simp only [List.map_cons, List.map_nil]
  have cx : ([x, x, y, z, z] : List Nat).count x = 2 := by
    simp [List.count_cons, Ne.symm hxy, Ne.symm hxz, Ne.symm hyz, hxy, hxz, hyz]
  have cy : ([x, x, y, z, z] : List Nat).count y = 1 := by
    simp [List.count_cons, Ne.symm hxy, Ne.symm hxz, Ne.symm hyz, hxy, hxz, hyz]
  have cz : ([x, x, y, z, z] : List Nat).count z = 2 := by
    simp [List.count_cons, Ne.symm hxy, Ne.symm hxz, Ne.symm hyz, hxy, hxz, hyz]
  rw [cx, cy, cz]
  decide

theorem natCounts_xxyzw (x y z w : Nat) (hxy : x ≠ y) (hxz : x ≠ z) (hxw : x ≠ w) (hyz : y ≠ z) (hyw : y ≠ w) (hzw : z ≠ w) :
    natCountsDesc ([x, x, y, z, w] : List Nat) = [2, 1, 1, 1] := by
  unfold natCountsDesc
  have hd : ([x, x, y, z, w] : List Nat).dedup = [x, y, z, w] := by
    rw [List.dedup_cons_of_mem (by simp),
      List.dedup_cons_of_not_mem (by simp [hxw, hxy, hxz]),
      List.dedup_cons_of_not_mem (by simp [hyw, hyz]),
      List.dedup_cons_of_not_mem (by simp [hzw]),
      List.dedup_cons_of_not_mem (by simp)]
    simp
  rw [hd]
  simp only [List.map_cons, List.map_nil]
  have cx : ([x, x, y, z, w] : List Nat).count x = 2 := by
    simp [List.count_cons, Ne.symm hxw, Ne.symm hxy, Ne.symm hxz, Ne.symm hyw, Ne.symm hyz, Ne.symm hzw, hxw, hxy, hxz, hyw, hyz, hzw]
  have cy : ([x, x, y, z, w] : List Nat).count y = 1 := by
    simp [List.count_cons, Ne.symm hxw, Ne.symm hxy, Ne.symm hxz, Ne.symm hyw, Ne.symm hyz, Ne.symm hzw, hxw, hxy, hxz, hyw, hyz, hzw]
  have cz : ([x, x, y, z, w] : List Nat).count z = 1 := by
    simp [List.count_cons, Ne.symm hxw, Ne.symm hxy, Ne.symm hxz, Ne.symm hyw, Ne.symm hyz, Ne.symm hzw, hxw, hxy, hxz, hyw, hyz, hzw]
  have cw : ([x, x, y, z, w] : List Nat).count w = 1 := by
    simp [List.count_cons, Ne.symm hxw, Ne.symm hxy, Ne.symm hxz, Ne.symm hyw, Ne.symm hyz, Ne.symm hzw, hxw, hxy, hxz, hyw, hyz, hzw]
  rw [cx, cy, cz, cw]
  decide

theorem natCounts_xyyyy (x y : Nat) (hxy : x ≠ y) :
    natCountsDesc ([x, y, y, y, y] : List Nat) = [4, 1] := by
  unfold natCountsDesc
  have hd : ([x, y, y, y, y] : List Nat).dedup = [x, y] := by
    rw [List.dedup_cons_of_not_mem (by simp [hxy]),
      List.dedup_cons_of_mem (by simp),
      List.dedup_cons_of_mem (by simp),
      List.dedup_cons_of_mem (by simp),
      List.dedup_cons_of_not_mem (by simp)]
    simp
  rw [hd]
  simp only [List.map_cons, List.map_nil]
  have cx : ([x, y, y, y, y] : List Nat).count x = 1 := by
    simp [List.count_cons, Ne.symm hxy, hxy]
  have cy : ([x, y, y, y, y] : List Nat).count y = 4 := by
    simp [List.count_cons, Ne.symm hxy, hxy]
  rw [cx, cy]
  decide

theorem natCounts_xyyyz (x y z : Nat) (hxy : x ≠ y) (hxz : x ≠ z) (hyz : y ≠ z) :
    natCountsDesc ([x, y, y, y, z] : List Nat) = [3, 1, 1] := by
  unfold natCountsDesc
  have hd : ([x, y, y, y, z] : List Nat).dedup = [x, y, z] := by
    rw [List.dedup_cons_of_not_mem (by simp [hxy, hxz]),
      List.dedup_cons_of_mem (by simp),
      List.dedup_cons_of_mem (by simp),
      List.dedup_cons_of_not_mem (by simp [hyz]),
      List.dedup_cons_of_not_mem (by simp)]
    simp
  rw [hd]
  simp only [List.map_cons, List.map_nil]
  have cx : ([x, y, y, y, z] : List Nat).count x = 1 := by
    simp [List.count_cons, Ne.symm hxy, Ne.symm hxz, Ne.symm hyz, hxy, hxz, hyz]
  have cy : ([x, y, y, y, z] : List Nat).count y = 3 := by
    simp [List.count_cons, Ne.symm hxy, Ne.symm hxz, Ne.symm hyz, hxy, hxz, hyz]
  have cz : ([x, y, y, y, z] : List Nat).count z = 1 := by
    simp [List.count_cons, Ne.symm hxy, Ne.symm hxz, Ne.symm hyz, hxy, hxz, hyz]
  rw [cx, cy, cz]
  decide

theorem natCounts_xyyzz (x y z : Nat) (hxy : x ≠ y) (hxz : x ≠ z) (hyz : y ≠ z) :
    natCountsDesc ([x, y, y, z, z] : List Nat) = [2, 2, 1] := by
  unfold natCountsDesc
  have hd : ([x, y, y, z, z] : List Nat).dedup = [x, y, z] := by
    rw [List.dedup_cons_of_not_mem (by simp [hxy, hxz]),
      List.dedup_cons_of_mem (by simp),
      List.dedup_cons_of_not_mem (by simp [hyz]),
      List.dedup_cons_of_mem (by simp),
      List.dedup_cons_of_not_mem (by simp)]
    simp
  rw [hd]
  simp only [List.map_cons, List.map_nil]
  have cx : ([x, y, y, z, z] : List Nat).count x = 1 := by
    simp [List.count_cons, Ne.symm hxy, Ne.symm hxz, Ne.symm hyz, hxy, hxz, hyz]
  have cy : ([x, y, y, z, z] : List Nat).count y = 2 := by
    simp [List.count_cons, Ne.symm hxy, Ne.symm hxz, Ne.symm hyz, hxy, hxz, hyz]
  have cz : ([x, y, y, z, z] : List Nat).count z = 2 := by
    simp [List.count_cons, Ne.symm hxy, Ne.symm hxz, Ne.symm hyz, hxy, hxz, hyz]
  rw [cx, cy, cz]
  decide

theorem natCounts_xyyzw (x y z w : Nat) (hxy : x ≠ y) (hxz : x ≠ z) (hxw : x ≠ w) (hyz : y ≠ z) (hyw : y ≠ w) (hzw : z ≠ w) :
    natCountsDesc ([x, y, y, z, w] : List Nat) = [2, 1, 1, 1] := by
  unfold natCountsDesc
  have hd : ([x, y, y, z, w] : List Nat).dedup = [x, y, z, w] := by
    rw [List.dedup_cons_of_not_mem (by simp [hxw, hxy, hxz]),
      List.dedup_cons_of_mem (by simp),
      List.dedup_cons_of_not_mem (by simp [hyw, hyz]),
      List.dedup_cons_of_not_mem (by simp [hzw]),
      List.dedup_cons_of_not_mem (by simp)]
    simp
  rw [hd]
  simp only [List.map_cons, List.map_nil]
  have cx : ([x, y, y, z, w] : List Nat).count x = 1 := by
    simp [List.count_cons, Ne.symm hxw, Ne.symm hxy, Ne.symm hxz, Ne.symm hyw, Ne.symm hyz, Ne.symm hzw, hxw, hxy, hxz, hyw, hyz, hzw]
  have cy : ([x, y, y, z, w] : List Nat).count y = 2 := by
    simp [List.count_cons, Ne.symm hxw, Ne.symm hxy, Ne.symm hxz, Ne.symm hyw, Ne.symm hyz, Ne.symm hzw, hxw, hxy, hxz, hyw, hyz, hzw]
  have cz : ([x, y, y, z, w] : List Nat).count z = 1 := by
    simp [List.count_cons, Ne.symm hxw, Ne.symm hxy, Ne.symm hxz, Ne.symm hyw, Ne.symm hyz, Ne.symm hzw, hxw, hxy, hxz, hyw, hyz, hzw]
  have cw : ([x, y, y, z, w] : List Nat).count w = 1 := by
    simp [List.count_cons, Ne.symm hxw, Ne.symm hxy, Ne.symm hxz, Ne.symm hyw, Ne.symm hyz, Ne.symm hzw, hxw, hxy, hxz, hyw, hyz, hzw]
  rw [cx, cy, cz, cw]
  decide

theorem natCounts_xyzzz (x y z : Nat) (hxy : x ≠ y) (hxz : x ≠ z) (hyz : y ≠ z) :
    natCountsDesc ([x, y, z, z, z] : List Nat) = [3, 1, 1] := by
  unfold natCountsDesc
  have hd : ([x, y, z, z, z] : List Nat).dedup = [x, y, z] := by
    rw [List.dedup_cons_of_not_mem (by simp [hxy, hxz]),
      List.dedup_cons_of_not_mem (by simp [hyz]),
      List.dedup_cons_of_mem (by simp),
      List.dedup_cons_of_mem (by simp),
      List.dedup_cons_of_not_mem (by simp)]
    simp
  rw [hd]
  simp only [List.map_cons, List.map_nil]
  have cx : ([x, y, z, z, z] : List Nat).count x = 1 := by
    simp [List.count_cons, Ne.symm hxy, Ne.symm hxz, Ne.symm hyz, hxy, hxz, hyz]
  have cy : ([x, y, z, z, z] : List Nat).count y = 1 := by
    simp [List.count_cons, Ne.symm hxy, Ne.symm hxz, Ne.symm hyz, hxy, hxz, hyz]
  have cz : ([x, y, z, z, z] : List Nat).count z = 3 := by
    simp [List.count_cons, Ne.symm hxy, Ne.symm hxz, Ne.symm hyz, hxy, hxz, hyz]
  rw [cx, cy, cz]
  decide

theorem natCounts_xyzzw (x y z w : Nat) (hxy : x ≠ y) (hxz : x ≠ z) (hxw : x ≠ w) (hyz : y ≠ z) (hyw : y ≠ w) (hzw : z ≠ w) :
    natCountsDesc ([x, y, z, z, w] : List Nat) = [2, 1, 1, 1] := by
  unfold natCountsDesc
  have hd : ([x, y, z, z, w] : List Nat).dedup = [x, y, z, w] := by
    rw [List.dedup_cons_of_not_mem (by simp [hxw, hxy, hxz]),
      List.dedup_cons_of_not_mem (by simp [hyw, hyz]),
      List.dedup_cons_of_mem (by simp),
      List.dedup_cons_of_not_mem (by simp [hzw]),
      List.dedup_cons_of_not_mem (by simp)]
    simp
  rw [hd]
  simp only [List.map_cons, List.map_nil]
  have cx : ([x, y, z, z, w] : List Nat).count x = 1 := by
    simp [List.count_cons, Ne.symm hxw, Ne.symm hxy, Ne.symm hxz, Ne.symm hyw, Ne.symm hyz, Ne.symm hzw, hxw, hxy, hxz, hyw, hyz, hzw]
  have cy : ([x, y, z, z, w] : List Nat).count y = 1 := by
    simp [List.count_cons, Ne.symm hxw, Ne.symm hxy, Ne.symm hxz, Ne.symm hyw, Ne.symm hyz, Ne.symm hzw, hxw, hxy, hxz, hyw, hyz, hzw]
  have cz : ([x, y, z, z, w] : List Nat).count z = 2 := by
    simp [List.count_cons, Ne.symm hxw, Ne.symm hxy, Ne.symm hxz, Ne.symm hyw, Ne.symm hyz, Ne.symm hzw, hxw, hxy, hxz, hyw, hyz, hzw]
  have cw : ([x, y, z, z, w] : List Nat).count w = 1 := by
    simp [List.count_cons, Ne.symm hxw, Ne.symm hxy, Ne.symm hxz, Ne.symm hyw, Ne.symm hyz, Ne.symm hzw, hxw, hxy, hxz, hyw, hyz, hzw]
  rw [cx, cy, cz, cw]
  decide

theorem natCounts_xyzww (x y z w : Nat) (hxy : x ≠ y) (hxz : x ≠ z) (hxw : x ≠ w) (hyz : y ≠ z) (hyw : y ≠ w) (hzw : z ≠ w) :
    natCountsDesc ([x, y, z, w, w] : List Nat) = [2, 1, 1, 1] := by
  unfold natCountsDesc
  have hd : ([x, y, z, w, w] : List Nat).dedup = [x, y, z, w] := by
    rw [List.dedup_cons_of_not_mem (by simp [hxw, hxy, hxz]),
      List.dedup_cons_of_not_mem (by simp [hyw, hyz]),
      List.dedup_cons_of_not_mem (by simp [hzw]),
      List.dedup_cons_of_mem (by simp),
      List.dedup_cons_of_not_mem (by simp)]
    simp
  rw [hd]
  simp only [List.map_cons, List.map_nil]
  have cx : ([x, y, z, w, w] : List Nat).count x = 1 := by
    simp [List.count_cons, Ne.symm hxw, Ne.symm hxy, Ne.symm hxz, Ne.symm hyw, Ne.symm hyz, Ne.symm hzw, hxw, hxy, hxz, hyw, hyz, hzw]
  have cy : ([x, y, z, w, w] : List Nat).count y = 1 := by
    simp [List.count_cons, Ne.symm hxw, Ne.symm hxy, Ne.symm hxz, Ne.symm hyw, Ne.symm hyz, Ne.symm hzw, hxw, hxy, hxz, hyw, hyz, hzw]
  have cz : ([x, y, z, w, w] : List Nat).count z = 1 := by
    simp [List.count_cons, Ne.symm hxw, Ne.symm hxy, Ne.symm hxz, Ne.symm hyw, Ne.symm hyz, Ne.symm hzw, hxw, hxy, hxz, hyw, hyz, hzw]
  have cw : ([x, y, z, w, w] : List Nat).count w = 2 := by
    simp [List.count_cons, Ne.symm hxw, Ne.symm hxy, Ne.symm hxz, Ne.symm hyw, Ne.symm hyz, Ne.symm hzw, hxw, hxy, hxz, hyw, hyz, hzw]
  rw [cx, cy, cz, cw]
  decide

theorem natCounts_xyzwu (x y z w u : Nat) (hxy : x ≠ y) (hxz : x ≠ z) (hxw : x ≠ w) (hxu : x ≠ u) (hyz : y ≠ z) (hyw : y ≠ w) (hyu : y ≠ u) (hzw : z ≠ w) (hzu : z ≠ u) (hwu : w ≠ u) :
    natCountsDesc ([x, y, z, w, u] : List Nat) = [1, 1, 1, 1, 1] := by
  unfold natCountsDesc
  have hd : ([x, y, z, w, u] : List Nat).dedup = [x, y, z, w, u] := by
    rw [List.dedup_cons_of_not_mem (by simp [hxu, hxw, hxy, hxz]),
      List.dedup_cons_of_not_mem (by simp [hyu, hyw, hyz]),
      List.dedup_cons_of_not_mem (by simp [hzu, hzw]),
      List.dedup_cons_of_not_mem (by simp [hwu]),
      List.dedup_cons_of_not_mem (by simp)]
    simp
  rw [hd]
  simp only [List.map_cons, List.map_nil]
  have cx : ([x, y, z, w, u] : List Nat).count x = 1 := by
    simp [List.count_cons, Ne.symm hwu, Ne.symm hxu, Ne.symm hxw, Ne.symm hxy, Ne.symm hxz, Ne.symm hyu, Ne.symm hyw, Ne.symm hyz, Ne.symm hzu, Ne.symm hzw, hwu, hxu, hxw, hxy, hxz, hyu, hyw, hyz, hzu, hzw]
  have cy : ([x, y, z, w, u] : List Nat).count y = 1 := by
    simp [List.count_cons, Ne.symm hwu, Ne.symm hxu, Ne.symm hxw, Ne.symm hxy, Ne.symm hxz, Ne.symm hyu, Ne.symm hyw, Ne.symm hyz, Ne.symm hzu, Ne.symm hzw, hwu, hxu, hxw, hxy, hxz, hyu, hyw, hyz, hzu, hzw]
  have cz : ([x, y, z, w, u] : List Nat).count z = 1 := by
    simp [List.count_cons, Ne.symm hwu, Ne.symm hxu, Ne.symm hxw, Ne.symm hxy, Ne.symm hxz, Ne.symm hyu, Ne.symm hyw, Ne.symm hyz, Ne.symm hzu, Ne.symm hzw, hwu, hxu, hxw, hxy, hxz, hyu, hyw, hyz, hzu, hzw]
  have cw : ([x, y, z, w, u] : List Nat).count w = 1 := by
    simp [List.count_cons, Ne.symm hwu, Ne.symm hxu, Ne.symm hxw, Ne.symm hxy, Ne.symm hxz, Ne.symm hyu, Ne.symm hyw, Ne.symm hyz, Ne.symm hzu, Ne.symm hzw, hwu, hxu, hxw, hxy, hxz, hyu, hyw, hyz, hzu, hzw]
  have cu : ([x, y, z, w, u] : List Nat).count u = 1 := by
    simp [List.count_cons, Ne.symm hwu, Ne.symm hxu, Ne.symm hxw, Ne.symm hxy, Ne.symm hxz, Ne.symm hyu, Ne.symm hyw, Ne.symm hyz, Ne.symm hzu, Ne.symm hzw, hwu, hxu, hxw, hxy, hxz, hyu, hyw, hyz, hzu, hzw]
  rw [cx, cy, cz, cw, cu]
  decide

/-- C7: for five pairwise distinct cards that form neither a flush nor a
run, the assigned category is determined by the multiset of rank-group
sizes through the table (4,1) FourOfAKind, (3,2) FullHouse, (3,1,1)
ThreeOfAKind, (2,2,1) TwoPair, (2,1,1,1) Pair and (1,1,1,1,1) HighCard. -/
theorem c7_category_of_group_sizes (c1 c2 c3 c4 c5 : Card)
    (hdist : ([c1, c2, c3, c4, c5] : List Card).Nodup)
    (hsuit : ¬ allSameSuit [c1, c2, c3, c4, c5])
    (hnr : ¬ isRun [c1, c2, c3, c4, c5]) :
    handCategoryOf [c1, c2, c3, c4, c5] =
      some (categoryOfCounts (countsDesc [c1, c2, c3, c4, c5])) := by
  obtain ⟨a0, a1, a2, a3, a4, hA, hperm, h01, h12, h23, h34⟩ := sorted_shape c1 c2 c3 c4 c5
  have hIn : (([c1, c2, c3, c4, c5] : List Card).map Card.rankNat).Perm
      [a0.rankNat, a1.rankNat, a2.rankNat, a3.rankNat, a4.rankNat] := by
    have h := (hperm.map Card.rankNat).symm
    simpa using h
  have hfl : ¬ isFlushB a0 a1 a2 a3 a4 = true := by
    intro hb
    exact hsuit ((allSameSuit_perm hperm).mp ((isFlushB_iff a0 a1 a2 a3 a4).mp hb))
  have hsr := straightRes_false_of_not_run hIn (rank_le_12 a0) hnr
  have hcd : countsDesc [c1, c2, c3, c4, c5] =
      natCountsDesc [a0.rankNat, a1.rankNat, a2.rankNat, a3.rankNat, a4.rankNat] :=
    natCountsDesc_perm hIn
  unfold handCategoryOf
  rw [sortAndCategorize_eq_sorted hA]
  unfold categorizeSorted
  rw [hsr, if_neg hfl, hcd]
  dsimp only
  rw [if_neg (by simp : ¬ false = true)]
  by_cases t0 : a0.rank = a1.rank
  · by_cases t1 : a1.rank = a2.rank
    · by_cases t2 : a2.rank = a3.rank
      · by_cases t3 : a3.rank = a4.rank
        · have g3 : groupByRank [a3, a4] = [[a3, a4]] := by
            rw [groupByRank, if_pos t3, groupByRank]
          have g2 : groupByRank [a2, a3, a4] = [[a2, a3, a4]] := by
            rw [groupByRank, if_pos t2, g3]
          have g1 : groupByRank [a1, a2, a3, a4] = [[a1, a2, a3, a4]] := by
            rw [groupByRank, if_pos t1, g2]
          have g0 : groupByRank [a0, a1, a2, a3, a4] = [[a0, a1, a2, a3, a4]] := by
            rw [groupByRank, if_pos t0, g1]
          have hsg : sortGroups [a0, a1, a2, a3, a4] = [[a0, a1, a2, a3, a4]] := by
            unfold sortGroups
            rw [g0]
            simp [List.insertionSort, List.orderedInsert, groupLenLe]
          have hcg : categorizeGroups [a0, a1, a2, a3, a4] = some (.HighCard, [a0, a1, a2, a3, a4]) := by
            unfold categorizeGroups
            rw [hsg]
            simp [copyOrder]
          rw [hcg]
          simp only [Option.map_some']
          have eqn0 : a1.rankNat = a0.rankNat := (Card.rank_eq_iff.mp t0).symm
          have eqn1 : a2.rankNat = a1.rankNat := (Card.rank_eq_iff.mp t1).symm
          have eqn2 : a3.rankNat = a2.rankNat := (Card.rank_eq_iff.mp t2).symm
          have eqn3 : a4.rankNat = a3.rankNat := (Card.rank_eq_iff.mp t3).symm
          rw [eqn3, eqn2, eqn1, eqn0]
          rw [natCounts_xxxxx a0.rankNat]
          rfl
        · have g3 : groupByRank [a3, a4] = [[a3], [a4]] := by
            rw [groupByRank, if_neg t3, groupByRank]
          have g2 : groupByRank [a2, a3, a4] = [[a2, a3], [a4]] := by
            rw [groupByRank, if_pos t2, g3]
          have g1 : groupByRank [a1, a2, a3, a4] = [[a1, a2, a3], [a4]] := by
            rw [groupByRank, if_pos t1, g2]
          have g0 : groupByRank [a0, a1, a2, a3, a4] = [[a0, a1, a2, a3], [a4]] := by
            rw [groupByRank, if_pos t0, g1]
          have hsg : sortGroups [a0, a1, a2, a3, a4] = [[a0, a1, a2, a3], [a4]] := by
            unfold sortGroups
            rw [g0]
            simp [List.insertionSort, List.orderedInsert, groupLenLe]
          have hcg : categorizeGroups [a0, a1, a2, a3, a4] = some (.FourOfAKind, [a0, a1, a2, a3, a4]) := by
            unfold categorizeGroups
            rw [hsg]
            simp [copyOrder]
          rw [hcg]
          simp only [Option.map_some']
          have eqn0 : a1.rankNat = a0.rankNat := (Card.rank_eq_iff.mp t0).symm
          have eqn1 : a2.rankNat = a1.rankNat := (Card.rank_eq_iff.mp t1).symm
          have eqn2 : a3.rankNat = a2.rankNat := (Card.rank_eq_iff.mp t2).symm
          have neq3 : a3.rankNat ≠ a4.rankNat := fun hh => t3 (Card.rank_eq_iff.mpr hh)
          rw [eqn2, eqn1, eqn0]
          rw [natCounts_xxxxy a0.rankNat a4.rankNat (by omega)]
          rfl
      · by_cases t3 : a3.rank = a4.rank
        · have g3 : groupByRank [a3, a4] = [[a3, a4]] := by
            rw [groupByRank, if_pos t3, groupByRank]
          have g2 : groupByRank [a2, a3, a4] = [[a2], [a3, a4]] := by
            rw [groupByRank, if_neg t2, g3]
          have g1 : groupByRank [a1, a2, a3, a4] = [[a1, a2], [a3, a4]] := by
            rw [groupByRank, if_pos t1, g2]
          have g0 : groupByRank [a0, a1, a2, a3, a4] = [[a0, a1, a2], [a3, a4]] := by
            rw [groupByRank, if_pos t0, g1]
          have hsg : sortGroups [a0, a1, a2, a3, a4] = [[a0, a1, a2], [a3, a4]] := by
            unfold sortGroups
            rw [g0]
            simp [List.insertionSort, List.orderedInsert, groupLenLe]
          have hcg : categorizeGroups [a0, a1, a2, a3, a4] = some (.FullHouse, [a0, a1, a2, a3, a4]) := by
            unfold categorizeGroups
            rw [hsg]
            simp [copyOrder]
          rw [hcg]
          simp only [Option.map_some']
          have eqn0 : a1.rankNat = a0.rankNat := (Card.rank_eq_iff.mp t0).symm
          have eqn1 : a2.rankNat = a1.rankNat := (Card.rank_eq_iff.mp t1).symm
          have neq2 : a2.rankNat ≠ a3.rankNat := fun hh => t2 (Card.rank_eq_iff.mpr hh)
          have eqn3 : a4.rankNat = a3.rankNat := (Card.rank_eq_iff.mp t3).symm
          rw [eqn3, eqn1, eqn0]
          rw [natCounts_xxxyy a0.rankNat a3.rankNat (by omega)]
          rfl
        · have g3 : groupByRank [a3, a4] = [[a3], [a4]] := by
            rw [groupByRank, if_neg t3, groupByRank]
          have g2 : groupByRank [a2, a3, a4] = [[a2], [a3], [a4]] := by
            rw [groupByRank, if_neg t2, g3]
          have g1 : groupByRank [a1, a2, a3, a4] = [[a1, a2], [a3], [a4]] := by
            rw [groupByRank, if_pos t1, g2]
          have g0 : groupByRank [a0, a1, a2, a3, a4] = [[a0, a1, a2], [a3], [a4]] := by
            rw [groupByRank, if_pos t0, g1]
          have hsg : sortGroups [a0, a1, a2, a3, a4] = [[a0, a1, a2], [a4], [a3]] := by
            unfold sortGroups
            rw [g0]
            simp [List.insertionSort, List.orderedInsert, groupLenLe]
          have hcg : categorizeGroups [a0, a1, a2, a3, a4] = some (.ThreeOfAKind, [a0, a1, a2, a4, a3]) := by
            unfold categorizeGroups
            rw [hsg]
            simp [copyOrder]
          rw [hcg]
          simp only [Option.map_some']
          have eqn0 : a1.rankNat = a0.rankNat := (Card.rank_eq_iff.mp t0).symm
          have eqn1 : a2.rankNat = a1.rankNat := (Card.rank_eq_iff.mp t1).symm
          have neq2 : a2.rankNat ≠ a3.rankNat := fun hh => t2 (Card.rank_eq_iff.mpr hh)
          have neq3 : a3.rankNat ≠ a4.rankNat := fun hh => t3 (Card.rank_eq_iff.mpr hh)
          rw [eqn1, eqn0]
          rw [natCounts_xxxyz a0.rankNat a3.rankNat a4.rankNat (by omega) (by omega) (by omega)]
          rfl
    · by_cases t2 : a2.rank = a3.rank
      · by_cases t3 : a3.rank = a4.rank
        · have g3 : groupByRank [a3, a4] = [[a3, a4]] := by
            rw [groupByRank, if_pos t3, groupByRank]
          have g2 : groupByRank [a2, a3, a4] = [[a2, a3, a4]] := by
            rw [groupByRank, if_pos t2, g3]
          have g1 : groupByRank [a1, a2, a3, a4] = [[a1], [a2, a3, a4]] := by
            rw [groupByRank, if_neg t1, g2]
          have g0 : groupByRank [a0, a1, a2, a3, a4] = [[a0, a1], [a2, a3, a4]] := by
            rw [groupByRank, if_pos t0, g1]
          have hsg : sortGroups [a0, a1, a2, a3, a4] = [[a2, a3, a4], [a0, a1]] := by
            unfold sortGroups
            rw [g0]
            simp [List.insertionSort, List.orderedInsert, groupLenLe]
          have hcg : categorizeGroups [a0, a1, a2, a3, a4] = some (.FullHouse, [a2, a3, a4, a0, a1]) := by
            unfold categorizeGroups
            rw [hsg]
            simp [copyOrder]
          rw [hcg]
          simp only [Option.map_some']
          have eqn0 : a1.rankNat = a0.rankNat := (Card.rank_eq_iff.mp t0).symm
          have neq1 : a1.rankNat ≠ a2.rankNat := fun hh => t1 (Card.rank_eq_iff.mpr hh)
          have eqn2 : a3.rankNat = a2.rankNat := (Card.rank_eq_iff.mp t2).symm
          have eqn3 : a4.rankNat = a3.rankNat := (Card.rank_eq_iff.mp t3).symm
          rw [eqn3, eqn2, eqn0]
          rw [natCounts_xxyyy a0.rankNat a2.rankNat (by omega)]
          rfl
        · have g3 : groupByRank [a3, a4] = [[a3], [a4]] := by
            rw [groupByRank, if_neg t3, groupByRank]
          have g2 : groupByRank [a2, a3, a4] = [[a2, a3], [a4]] := by
            rw [groupByRank, if_pos t2, g3]
          have g1 : groupByRank [a1, a2, a3, a4] = [[a1], [a2, a3], [a4]] := by
            rw [groupByRank, if_neg t1, g2]
          have g0 : groupByRank [a0, a1, a2, a3, a4] = [[a0, a1], [a2, a3], [a4]] := by
            rw [groupByRank, if_pos t0, g1]
          have hsg : sortGroups [a0, a1, a2, a3, a4] = [[a2, a3], [a0, a1], [a4]] := by
            unfold sortGroups
            rw [g0]
            simp [List.insertionSort, List.orderedInsert, groupLenLe]
          have hcg : categorizeGroups [a0, a1, a2, a3, a4] = some (.TwoPair, [a2, a3, a0, a1, a4]) := by
            unfold categorizeGroups
            rw [hsg]
            simp [copyOrder]
          rw [hcg]
          simp only [Option.map_some']
          have eqn0 : a1.rankNat = a0.rankNat := (Card.rank_eq_iff.mp t0).symm
          have neq1 : a1.rankNat ≠ a2.rankNat := fun hh => t1 (Card.rank_eq_iff.mpr hh)
          have eqn2 : a3.rankNat = a2.rankNat := (Card.rank_eq_iff.mp t2).symm
          have neq3 : a3.rankNat ≠ a4.rankNat := fun hh => t3 (Card.rank_eq_iff.mpr hh)
          rw [eqn2, eqn0]
          rw [natCounts_xxyyz a0.rankNat a2.rankNat a4.rankNat (by omega) (by omega) (by omega)]
          rfl
      · by_cases t3 : a3.rank = a4.rank
        · have g3 : groupByRank [a3, a4] = [[a3, a4]] := by
            rw [groupByRank, if_pos t3, groupByRank]
          have g2 : groupByRank [a2, a3, a4] = [[a2], [a3, a4]] := by
            rw [groupByRank, if_neg t2, g3]
          have g1 : groupByRank [a1, a2, a3, a4] = [[a1], [a2], [a3, a4]] := by
            rw [groupByRank, if_neg t1, g2]
          have g0 : groupByRank [a0, a1, a2, a3, a4] = [[a0, a1], [a2], [a3, a4]] := by
            rw [groupByRank, if_pos t0, g1]
          have hsg : sortGroups [a0, a1, a2, a3, a4] = [[a3, a4], [a0, a1], [a2]] := by
            unfold sortGroups
            rw [g0]
            simp [List.insertionSort, List.orderedInsert, groupLenLe]
          have hcg : categorizeGroups [a0, a1, a2, a3, a4] = some (.TwoPair, [a3, a4, a0, a1, a2]) := by
            unfold categorizeGroups
            rw [hsg]
            simp [copyOrder]
          rw [hcg]
          simp only [Option.map_some']
          have eqn0 : a1.rankNat = a0.rankNat := (Card.rank_eq_iff.mp t0).symm
          have neq1 : a1.rankNat ≠ a2.rankNat := fun hh => t1 (Card.rank_eq_iff.mpr hh)
          have neq2 : a2.rankNat ≠ a3.rankNat := fun hh => t2 (Card.rank_eq_iff.mpr hh)
          have eqn3 : a4.rankNat = a3.rankNat := (Card.rank_eq_iff.mp t3).symm
          rw [eqn3, eqn0]
          rw [natCounts_xxyzz a0.rankNat a2.rankNat a3.rankNat (by omega) (by omega) (by omega)]
          rfl
        · have g3 : groupByRank [a3, a4] = [[a3], [a4]] := by
            rw [groupByRank, if_neg t3, groupByRank]
          have g2 : groupByRank [a2, a3, a4] = [[a2], [a3], [a4]] := by
            rw [groupByRank, if_neg t2, g3]
          have g1 : groupByRank [a1, a2, a3, a4] = [[a1], [a2], [a3], [a4]] := by
            rw [groupByRank, if_neg t1, g2]
          have g0 : groupByRank [a0, a1, a2, a3, a4] = [[a0, a1], [a2], [a3], [a4]] := by
            rw [groupByRank, if_pos t0, g1]
          have hsg : sortGroups [a0, a1, a2, a3, a4] = [[a0, a1], [a4], [a3], [a2]] := by
            unfold sortGroups
            rw [g0]
            simp [List.insertionSort, List.orderedInsert, groupLenLe]
          have hcg : categorizeGroups [a0, a1, a2, a3, a4] = some (.Pair, [a0, a1, a4, a3, a2]) := by
            unfold categorizeGroups
            rw [hsg]
            simp [copyOrder]
          rw [hcg]
          simp only [Option.map_some']
          have eqn0 : a1.rankNat = a0.rankNat := (Card.rank_eq_iff.mp t0).symm
          have neq1 : a1.rankNat ≠ a2.rankNat := fun hh => t1 (Card.rank_eq_iff.mpr hh)
          have neq2 : a2.rankNat ≠ a3.rankNat := fun hh => t2 (Card.rank_eq_iff.mpr hh)
          have neq3 : a3.rankNat ≠ a4.rankNat := fun hh => t3 (Card.rank_eq_iff.mpr hh)
          rw [eqn0]
          rw [natCounts_xxyzw a0.rankNat a2.rankNat a3.rankNat a4.rankNat (by omega) (by omega) (by omega) (by omega) (by omega) (by omega)]
          rfl
  · by_cases t1 : a1.rank = a2.rank
    · by_cases t2 : a2.rank = a3.rank
      · by_cases t3 : a3.rank = a4.rank
        · have g3 : groupByRank [a3, a4] = [[a3, a4]] := by
            rw [groupByRank, if_pos t3, groupByRank]
          have g2 : groupByRank [a2, a3, a4] = [[a2, a3, a4]] := by
            rw [groupByRank, if_pos t2, g3]
          have g1 : groupByRank [a1, a2, a3, a4] = [[a1, a2, a3, a4]] := by
            rw [groupByRank, if_pos t1, g2]
          have g0 : groupByRank [a0, a1, a2, a3, a4] = [[a0], [a1, a2, a3, a4]] := by
            rw [groupByRank, if_neg t0, g1]
          have hsg : sortGroups [a0, a1, a2, a3, a4] = [[a1, a2, a3, a4], [a0]] := by
            unfold sortGroups
            rw [g0]
            simp [List.insertionSort, List.orderedInsert, groupLenLe]
          have hcg : categorizeGroups [a0, a1, a2, a3, a4] = some (.FourOfAKind, [a1, a2, a3, a4, a0]) := by
            unfold categorizeGroups
            rw [hsg]
            simp [copyOrder]
          rw [hcg]
          simp only [Option.map_some']
          have neq0 : a0.rankNat ≠ a1.rankNat := fun hh => t0 (Card.rank_eq_iff.mpr hh)
          have eqn1 : a2.rankNat = a1.rankNat := (Card.rank_eq_iff.mp t1).symm
          have eqn2 : a3.rankNat = a2.rankNat := (Card.rank_eq_iff.mp t2).symm
          have eqn3 : a4.rankNat = a3.rankNat := (Card.rank_eq_iff.mp t3).symm
          rw [eqn3, eqn2, eqn1]
          rw [natCounts_xyyyy a0.rankNat a1.rankNat (by omega)]
          rfl
        · have g3 : groupByRank [a3, a4] = [[a3], [a4]] := by
            rw [groupByRank, if_neg t3, groupByRank]
          have g2 : groupByRank [a2, a3, a4] = [[a2, a3], [a4]] := by
            rw [groupByRank, if_pos t2, g3]
          have g1 : groupByRank [a1, a2, a3, a4] = [[a1, a2, a3], [a4]] := by
            rw [groupByRank, if_pos t1, g2]
          have g0 : groupByRank [a0, a1, a2, a3, a4] = [[a0], [a1, a2, a3], [a4]] := by
            rw [groupByRank, if_neg t0, g1]
          have hsg : sortGroups [a0, a1, a2, a3, a4] = [[a1, a2, a3], [a4], [a0]] := by
            unfold sortGroups
            rw [g0]
            simp [List.insertionSort, List.orderedInsert, groupLenLe]
          have hcg : categorizeGroups [a0, a1, a2, a3, a4] = some (.ThreeOfAKind, [a1, a2, a3, a4, a0]) := by
            unfold categorizeGroups
            rw [hsg]
            simp [copyOrder]
          rw [hcg]
          simp only [Option.map_some']
          have neq0 : a0.rankNat ≠ a1.rankNat := fun hh => t0 (Card.rank_eq_iff.mpr hh)
          have eqn1 : a2.rankNat = a1.rankNat := (Card.rank_eq_iff.mp t1).symm
          have eqn2 : a3.rankNat = a2.rankNat := (Card.rank_eq_iff.mp t2).symm
          have neq3 : a3.rankNat ≠ a4.rankNat := fun hh => t3 (Card.rank_eq_iff.mpr hh)
          rw [eqn2, eqn1]
          rw [natCounts_xyyyz a0.rankNat a1.rankNat a4.rankNat (by omega) (by omega) (by omega)]
          rfl
      · by_cases t3 : a3.rank = a4.rank
        · have g3 : groupByRank [a3, a4] = [[a3, a4]] := by
            rw [groupByRank, if_pos t3, groupByRank]
          have g2 : groupByRank [a2, a3, a4] = [[a2], [a3, a4]] := by
            rw [groupByRank, if_neg t2, g3]
          have g1 : groupByRank [a1, a2, a3, a4] = [[a1, a2], [a3, a4]] := by
            rw [groupByRank, if_pos t1, g2]
          have g0 : groupByRank [a0, a1, a2, a3, a4] = [[a0], [a1, a2], [a3, a4]] := by
            rw [groupByRank, if_neg t0, g1]
          have hsg : sortGroups [a0, a1, a2, a3, a4] = [[a3, a4], [a1, a2], [a0]] := by
            unfold sortGroups
            rw [g0]
            simp [List.insertionSort, List.orderedInsert, groupLenLe]
          have hcg : categorizeGroups [a0, a1, a2, a3, a4] = some (.TwoPair, [a3, a4, a1, a2, a0]) := by
            unfold categorizeGroups
            rw [hsg]
            simp [copyOrder]
          rw [hcg]
          simp only [Option.map_some']
          have neq0 : a0.rankNat ≠ a1.rankNat := fun hh => t0 (Card.rank_eq_iff.mpr hh)
          have eqn1 : a2.rankNat = a1.rankNat := (Card.rank_eq_iff.mp t1).symm
          have neq2 : a2.rankNat ≠ a3.rankNat := fun hh => t2 (Card.rank_eq_iff.mpr hh)
          have eqn3 : a4.rankNat = a3.rankNat := (Card.rank_eq_iff.mp t3).symm
          rw [eqn3, eqn1]
          rw [natCounts_xyyzz a0.rankNat a1.rankNat a3.rankNat (by omega) (by omega) (by omega)]
          rfl
        · have g3 : groupByRank [a3, a4] = [[a3], [a4]] := by
            rw [groupByRank, if_neg t3, groupByRank]
          have g2 : groupByRank [a2, a3, a4] = [[a2], [a3], [a4]] := by
            rw [groupByRank, if_neg t2, g3]
          have g1 : groupByRank [a1, a2, a3, a4] = [[a1, a2], [a3], [a4]] := by
            rw [groupByRank, if_pos t1, g2]
          have g0 : groupByRank [a0, a1, a2, a3, a4] = [[a0], [a1, a2], [a3], [a4]] := by
            rw [groupByRank, if_neg t0, g1]
          have hsg : sortGroups [a0, a1, a2, a3, a4] = [[a1, a2], [a4], [a3], [a0]] := by
            unfold sortGroups
            rw [g0]
            simp [List.insertionSort, List.orderedInsert, groupLenLe]
          have hcg : categorizeGroups [a0, a1, a2, a3, a4] = some (.Pair, [a1, a2, a4, a3, a0]) := by
            unfold categorizeGroups
            rw [hsg]
            simp [copyOrder]
          rw [hcg]
          simp only [Option.map_some']
          have neq0 : a0.rankNat ≠ a1.rankNat := fun hh => t0 (Card.rank_eq_iff.mpr hh)
          have eqn1 : a2.rankNat = a1.rankNat := (Card.rank_eq_iff.mp t1).symm
          have neq2 : a2.rankNat ≠ a3.rankNat := fun hh => t2 (Card.rank_eq_iff.mpr hh)
          have neq3 : a3.rankNat ≠ a4.rankNat := fun hh => t3 (Card.rank_eq_iff.mpr hh)
          rw [eqn1]
          rw [natCounts_xyyzw a0.rankNat a1.rankNat a3.rankNat a4.rankNat (by omega) (by omega) (by omega) (by omega) (by omega) (by omega)]
          rfl
    · by_cases t2 : a2.rank = a3.rank
      · by_cases t3 : a3.rank = a4.rank
        · have g3 : groupByRank [a3, a4] = [[a3, a4]] := by
            rw [groupByRank, if_pos t3, groupByRank]
          have g2 : groupByRank [a2, a3, a4] = [[a2, a3, a4]] := by
            rw [groupByRank, if_pos t2, g3]
          have g1 : groupByRank [a1, a2, a3, a4] = [[a1], [a2, a3, a4]] := by
            rw [groupByRank, if_neg t1, g2]
          have g0 : groupByRank [a0, a1, a2, a3, a4] = [[a0], [a1], [a2, a3, a4]] := by
            rw [groupByRank, if_neg t0, g1]
          have hsg : sortGroups [a0, a1, a2, a3, a4] = [[a2, a3, a4], [a1], [a0]] := by
            unfold sortGroups
            rw [g0]
            simp [List.insertionSort, List.orderedInsert, groupLenLe]
          have hcg : categorizeGroups [a0, a1, a2, a3, a4] = some (.ThreeOfAKind, [a2, a3, a4, a1, a0]) := by
            unfold categorizeGroups
            rw [hsg]
            simp [copyOrder]
          rw [hcg]
          simp only [Option.map_some']
          have neq0 : a0.rankNat ≠ a1.rankNat := fun hh => t0 (Card.rank_eq_iff.mpr hh)
          have neq1 : a1.rankNat ≠ a2.rankNat := fun hh => t1 (Card.rank_eq_iff.mpr hh)
          have eqn2 : a3.rankNat = a2.rankNat := (Card.rank_eq_iff.mp t2).symm
          have eqn3 : a4.rankNat = a3.rankNat := (Card.rank_eq_iff.mp t3).symm
          rw [eqn3, eqn2]
          rw [natCounts_xyzzz a0.rankNat a1.rankNat a2.rankNat (by omega) (by omega) (by omega)]
          rfl
        · have g3 : groupByRank [a3, a4] = [[a3], [a4]] := by
            rw [groupByRank, if_neg t3, groupByRank]
          have g2 : groupByRank [a2, a3, a4] = [[a2, a3], [a4]] := by
            rw [groupByRank, if_pos t2, g3]
          have g1 : groupByRank [a1, a2, a3, a4] = [[a1], [a2, a3], [a4]] := by
            rw [groupByRank, if_neg t1, g2]
          have g0 : groupByRank [a0, a1, a2, a3, a4] = [[a0], [a1], [a2, a3], [a4]] := by
            rw [groupByRank, if_neg t0, g1]
          have hsg : sortGroups [a0, a1, a2, a3, a4] = [[a2, a3], [a4], [a1], [a0]] := by
            unfold sortGroups
            rw [g0]
            simp [List.insertionSort, List.orderedInsert, groupLenLe]
          have hcg : categorizeGroups [a0, a1, a2, a3, a4] = some (.Pair, [a2, a3, a4, a1, a0]) := by
            unfold categorizeGroups
            rw [hsg]
            simp [copyOrder]
          rw [hcg]
          simp only [Option.map_some']
          have neq0 : a0.rankNat ≠ a1.rankNat := fun hh => t0 (Card.rank_eq_iff.mpr hh)
          have neq1 : a1.rankNat ≠ a2.rankNat := fun hh => t1 (Card.rank_eq_iff.mpr hh)
          have eqn2 : a3.rankNat = a2.rankNat := (Card.rank_eq_iff.mp t2).symm
          have neq3 : a3.rankNat ≠ a4.rankNat := fun hh => t3 (Card.rank_eq_iff.mpr hh)
          rw [eqn2]
          rw [natCounts_xyzzw a0.rankNat a1.rankNat a2.rankNat a4.rankNat (by omega) (by omega) (by omega) (by omega) (by omega) (by omega)]
          rfl
      · by_cases t3 : a3.rank = a4.rank
        · have g3 : groupByRank [a3, a4] = [[a3, a4]] := by
            rw [groupByRank, if_pos t3, groupByRank]
          have g2 : groupByRank [a2, a3, a4] = [[a2], [a3, a4]] := by
            rw [groupByRank, if_neg t2, g3]
          have g1 : groupByRank [a1, a2, a3, a4] = [[a1], [a2], [a3, a4]] := by
            rw [groupByRank, if_neg t1, g2]
          have g0 : groupByRank [a0, a1, a2, a3, a4] = [[a0], [a1], [a2], [a3, a4]] := by
            rw [groupByRank, if_neg t0, g1]
          have hsg : sortGroups [a0, a1, a2, a3, a4] = [[a3, a4], [a2], [a1], [a0]] := by
            unfold sortGroups
            rw [g0]
            simp [List.insertionSort, List.orderedInsert, groupLenLe]
          have hcg : categorizeGroups [a0, a1, a2, a3, a4] = some (.Pair, [a3, a4, a2, a1, a0]) := by
            unfold categorizeGroups
            rw [hsg]
            simp [copyOrder]
          rw [hcg]
          simp only [Option.map_some']
          have neq0 : a0.rankNat ≠ a1.rankNat := fun hh => t0 (Card.rank_eq_iff.mpr hh)
          have neq1 : a1.rankNat ≠ a2.rankNat := fun hh => t1 (Card.rank_eq_iff.mpr hh)
          have neq2 : a2.rankNat ≠ a3.rankNat := fun hh => t2 (Card.rank_eq_iff.mpr hh)
          have eqn3 : a4.rankNat = a3.rankNat := (Card.rank_eq_iff.mp t3).symm
          rw [eqn3]
          rw [natCounts_xyzww a0.rankNat a1.rankNat a2.rankNat a3.rankNat (by omega) (by omega) (by omega) (by omega) (by omega) (by omega)]
          rfl
        · have g3 : groupByRank [a3, a4] = [[a3], [a4]] := by
            rw [groupByRank, if_neg t3, groupByRank]
          have g2 : groupByRank [a2, a3, a4] = [[a2], [a3], [a4]] := by
            rw [groupByRank, if_neg t2, g3]
          have g1 : groupByRank [a1, a2, a3, a4] = [[a1], [a2], [a3], [a4]] := by
            rw [groupByRank, if_neg t1, g2]
          have g0 : groupByRank [a0, a1, a2, a3, a4] = [[a0], [a1], [a2], [a3], [a4]] := by
            rw [groupByRank, if_neg t0, g1]
          have hsg : sortGroups [a0, a1, a2, a3, a4] = [[a4], [a3], [a2], [a1], [a0]] := by
            unfold sortGroups
            rw [g0]
            simp [List.insertionSort, List.orderedInsert, groupLenLe]
          have hcg : categorizeGroups [a0, a1, a2, a3, a4] = some (.HighCard, [a4, a3, a2, a1, a0]) := by
            unfold categorizeGroups
            rw [hsg]
            simp [copyOrder]
          rw [hcg]
          simp only [Option.map_some']
          have neq0 : a0.rankNat ≠ a1.rankNat := fun hh => t0 (Card.rank_eq_iff.mpr hh)
          have neq1 : a1.rankNat ≠ a2.rankNat := fun hh => t1 (Card.rank_eq_iff.mpr hh)
          have neq2 : a2.rankNat ≠ a3.rankNat := fun hh => t2 (Card.rank_eq_iff.mpr hh)
          have neq3 : a3.rankNat ≠ a4.rankNat := fun hh => t3 (Card.rank_eq_iff.mpr hh)
          rw [natCounts_xyzwu a0.rankNat a1.rankNat a2.rankNat a3.rankNat a4.rankNat (by omega) (by omega) (by omega) (by omega) (by omega) (by omega) (by omega) (by omega) (by omega) (by omega)]
          rfl

/-- Witness for C7 at the two-pair hand H4, D5, S5, CJ, HJ, whose group
sizes are (2,2,1). -/
theorem c7_category_of_group_sizes_witness :
    handCategoryOf [⟨.Hearts, .Four⟩, ⟨.Diamonds, .Five⟩, ⟨.Spades, .Five⟩,
      ⟨.Clubs, .Jack⟩, ⟨.Hearts, .Jack⟩] = some .TwoPair :=
  (c7_category_of_group_sizes ⟨.Hearts, .Four⟩ ⟨.Diamonds, .Five⟩ ⟨.Spades, .Five⟩
    ⟨.Clubs, .Jack⟩ ⟨.Hearts, .Jack⟩ (by decide) (by decide) (by decide)).trans
    (by decide)
